import Mathlib

/-!
Verification development for the group5 helper strategy
(src/players/group5: constants.py, movement.py, specialization.py,
targeting.py, player.py).

Real-valued Python floats are modelled as real numbers; Python int() on a
nonnegative float is the floor; the Python float modulo follows the sign of
the divisor and is modelled by pyMod; random() calls are modelled by an
explicit oracle rand : Nat -> Real indexed by consumption order.

The module core (core.constants, core.sight, core.player) is not part of
src/; the pieces of it this development needs are modelled from the spec
and are marked as such in their doc comments.
-/

noncomputable section

open scoped Classical

/-- Position: a pair of real coordinates (source: Tuple[float, float]). -/
abbrev Pt := ℝ × ℝ

/-- MAX_MAP_COORD from src/players/group5/constants.py. -/
def MAX_MAP_COORD : ℝ := 999

/-- MIN_MAP_COORD from src/players/group5/constants.py. -/
def MIN_MAP_COORD : ℝ := 0

/-- TARGET_POINT_DISTANCE from src/players/group5/constants.py. -/
def TARGET_POINT_DISTANCE : ℝ := 150.0

/-- BACKTRACK_MIN_ANGLE from src/players/group5/constants.py: math.radians(160). -/
def BACKTRACK_MIN_ANGLE : ℝ := 160 * Real.pi / 180

/-- BACKTRACK_MAX_ANGLE from src/players/group5/constants.py: math.radians(200). -/
def BACKTRACK_MAX_ANGLE : ℝ := 200 * Real.pi / 180

/-- NEAR_ARK_DISTANCE from src/players/group5/constants.py. -/
def NEAR_ARK_DISTANCE : ℝ := 150.0

/-- SAFE_RADIUS_FROM_ARK from src/players/group5/constants.py. -/
def SAFE_RADIUS_FROM_ARK : ℝ := 1000.0

/-- Modelled from the spec: the module core.constants is not under src/.
Its four constants used by the group5 code are gathered in a parameter
record: MAX_DISTANCE_KM is the per-turn maximum move distance, EPS the
small positive epsilon guarding degenerate geometry, MAX_FLOCK_SIZE the
flock capacity (the spec scenario uses 5), START_RAIN the rain-deadline
constant (the spec scenario uses 1000). -/
structure Consts where
  MAX_DISTANCE_KM : ℝ
  EPS : ℝ
  MAX_FLOCK_SIZE : ℕ
  START_RAIN : ℤ

/-- Python int() applied to a real: truncation toward zero. -/
def pyInt (x : ℝ) : ℤ := if 0 ≤ x then ⌊x⌋ else -⌊-x⌋

/-- Python float modulo: result has the sign of the divisor (floor-based). -/
def pyMod (a b : ℝ) : ℝ := a - b * ⌊a / b⌋

/-- math.atan2(y, x), modelled as the argument of the complex number x + y i
(range (-pi, pi], agreeing with atan2 away from the negative-zero cases). -/
def atan2 (y x : ℝ) : ℝ := Complex.arg ⟨x, y⟩

/-- get_distance from src/players/group5/movement.py: Euclidean distance. -/
def get_distance (p1 p2 : Pt) : ℝ :=
  Real.sqrt ((p1.1 - p2.1) ^ 2 + (p1.2 - p2.2) ^ 2)

/-- is_within_map_bounds from src/players/group5/movement.py. -/
def is_within_map_bounds (x y : ℝ) : Prop :=
  (MIN_MAP_COORD ≤ x ∧ x ≤ MAX_MAP_COORD) ∧ (MIN_MAP_COORD ≤ y ∧ y ≤ MAX_MAP_COORD)

/-- is_within_safe_radius from src/players/group5/movement.py. -/
def is_within_safe_radius (pos ark_pos : Pt) (safe_radius : ℝ) : Prop :=
  get_distance pos ark_pos ≤ safe_radius

/-- get_move_to_target from src/players/group5/movement.py: the destination
of a move of at most MAX_DISTANCE_KM toward the target; below EPS the
target itself is returned. -/
def get_move_to_target (k : Consts) (current_pos target_pos : Pt) : Pt :=
  let dx := target_pos.1 - current_pos.1
  let dy := target_pos.2 - current_pos.2
  let dist := get_distance current_pos target_pos
  if dist < k.EPS then target_pos
  else
    let move_dist := min dist k.MAX_DISTANCE_KM
    (current_pos.1 + (dx / dist) * move_dist, current_pos.2 + (dy / dist) * move_dist)

/-- Loop body of get_new_random_target from src/players/group5/movement.py:
attempt index i, remaining fuel; each attempt consumes rand i. Returns the
first accepted candidate target, none when the attempt budget is spent. -/
def pickLoop (k : Consts) (rand : ℕ → ℝ) (current_pos previous_position ark_pos : Pt)
    (safe_radius : ℝ) : ℕ → ℕ → Option Pt
  | _, 0 => none
  | i, fuel + 1 =>
    let angle := rand i * (2 * Real.pi)
    let target_pos : Pt := (current_pos.1 + Real.cos angle * TARGET_POINT_DISTANCE,
                            current_pos.2 + Real.sin angle * TARGET_POINT_DISTANCE)
    if ¬ is_within_safe_radius target_pos ark_pos safe_radius then
      pickLoop k rand current_pos previous_position ark_pos safe_radius (i + 1) fuel
    else if ¬ is_within_map_bounds target_pos.1 target_pos.2 then
      pickLoop k rand current_pos previous_position ark_pos safe_radius (i + 1) fuel
    else
      let prev_dx := current_pos.1 - previous_position.1
      let prev_dy := current_pos.2 - previous_position.2
      let new_dx := target_pos.1 - current_pos.1
      let new_dy := target_pos.2 - current_pos.2
      let mag_prev := Real.sqrt (prev_dx ^ 2 + prev_dy ^ 2)
      let mag_new := Real.sqrt (new_dx ^ 2 + new_dy ^ 2)
      if mag_prev < k.EPS ∨ mag_new < k.EPS then some target_pos
      else
        let dot_product := prev_dx * new_dx + prev_dy * new_dy
        let cos_angle := max (-1) (min 1 (dot_product / (mag_prev * mag_new)))
        let angle_diff := Real.arccos cos_angle
        if ¬ (BACKTRACK_MIN_ANGLE ≤ angle_diff ∧ angle_diff ≤ BACKTRACK_MAX_ANGLE) then
          some target_pos
        else
          pickLoop k rand current_pos previous_position ark_pos safe_radius (i + 1) fuel

/-- get_new_random_target from src/players/group5/movement.py: 150 attempts
through pickLoop (consuming rand 0..149), then the fallback (continue the
standing target, else a jitter move consuming rand 150 and rand 151). -/
def get_new_random_target (k : Consts) (rand : ℕ → ℝ)
    (current_pos previous_position ark_pos : Pt) (safe_radius : ℝ)
    (current_target_pos : Option Pt) : Pt × Option Pt :=
  match pickLoop k rand current_pos previous_position ark_pos safe_radius 0 150 with
  | some target_pos => (get_move_to_target k current_pos target_pos, some target_pos)
  | none =>
    match current_target_pos with
    | some t => (get_move_to_target k current_pos t, some t)
    | none => ((current_pos.1 + rand 150 - 0.5, current_pos.2 + rand 151 - 0.5), none)

/-- get_return_move from src/players/group5/movement.py: the pair
(move destination, new current_target_pos); direct or near the ark it heads
straight home, otherwise it heads for a spiral waypoint at 90 percent of
the home distance, offset 30 degrees (sign by helper id parity), clamped
to the map. -/
def get_return_move (k : Consts) (current_pos ark_pos : Pt) (helper_id : ℤ)
    (direct : Bool) : Pt × Pt :=
  let current_dist_to_ark := get_distance current_pos ark_pos
  if direct = true ∨ current_dist_to_ark ≤ NEAR_ARK_DISTANCE then
    (get_move_to_target k current_pos ark_pos, ark_pos)
  else
    let dx := current_pos.1 - ark_pos.1
    let dy := current_pos.2 - ark_pos.2
    let current_angle := atan2 dy dx
    let arc_offset := (30 * Real.pi / 180) * (if helper_id % 2 = 0 then 1 else -1)
    let spiral_angle := current_angle + arc_offset
    let target_dist := current_dist_to_ark * 0.9
    let target_x := max MIN_MAP_COORD (min MAX_MAP_COORD (ark_pos.1 + Real.cos spiral_angle * target_dist))
    let target_y := max MIN_MAP_COORD (min MAX_MAP_COORD (ark_pos.2 + Real.sin spiral_angle * target_dist))
    (get_move_to_target k current_pos (target_x, target_y), (target_x, target_y))

/-- Constructor fragment of Player5 (src/players/group5/player.py lines
46-52): the exploration base angle; for id greater than 0 the Python code
divides by (num_helpers - 1), raising ZeroDivisionError when num_helpers
is 1, modelled by none. -/
def init_base_angle (id num_helpers : ℤ) : Option ℝ :=
  if 0 < id then
    if num_helpers - 1 = 0 then none
    else some ((2 * Real.pi * ((id : ℝ) - 1)) / ((num_helpers : ℝ) - 1))
  else some 0

end

/-- Gender from core.animal: Male, Female or Unknown. -/
inductive Gender
  | Male
  | Female
  | Unknown
deriving DecidableEq, Repr

/-- SpeciesGender from src/players/group5/constants.py: species id with a
gender tag. -/
abbrev SpeciesGender := ℤ × Gender

/-- Animal view from core.animal: species id and gender; uid models the
Python object identity so that distinct animals with equal keys can sit
together in a flock. -/
structure Animal where
  uid : ℕ
  species_id : ℤ
  gender : Gender
deriving DecidableEq, Repr

/-- CellView from core.views.cell_view: integer cell coordinates, the
animals present and the other helpers occupying the cell. -/
structure CellView where
  x : ℤ
  y : ℤ
  animals : List Animal
  helpers : List ℕ
deriving DecidableEq, Repr

/-- Sight: the perceived window, a list of visible cells. -/
abbrev Sight := List CellView

/-- Modelled from the spec: core.sight.Sight.get_cellview_at is not under
src/; per the perception-snapshot contract it looks up the visible cell
with the given coordinates, and the try/except at its call site maps a
failed lookup to none. -/
def get_cellview_at (s : Sight) (x y : ℤ) : Option CellView :=
  s.find? (fun c => c.x == x && c.y == y)

/-- Size list built by the loop of determine_helper_group
(src/players/group5/specialization.py lines 44-55): ceiling shares 30, 30
and 25 percent of the specialized count, the last group absorbing the
remainder (never negative). The Python float literals 0.30 and 0.25 are
modelled as exact rationals. -/
def group_sizes (num_specialized_helpers : ℤ) : List ℤ :=
  let s1 : ℤ := ⌈(30 * num_specialized_helpers : ℚ) / 100⌉
  let s2 : ℤ := ⌈(30 * num_specialized_helpers : ℚ) / 100⌉
  let s3 : ℤ := ⌈(25 * num_specialized_helpers : ℚ) / 100⌉
  let s4 : ℤ := max 0 (num_specialized_helpers - (s1 + s2 + s3))
  [s1, s2, s3, s4]

/-- Group lookup loop of determine_helper_group
(src/players/group5/specialization.py lines 58-66): walk the (size, limit)
pairs keeping the cumulative helper count; the group whose id range
contains group_id wins. -/
def findGroup (group_id : ℤ) : ℤ → List (ℤ × ℤ) → Option ℤ
  | _, [] => none
  | cumulative, (size, limit) :: rest =>
    if cumulative + 1 ≤ group_id ∧ group_id ≤ cumulative + size then some limit
    else findGroup group_id (cumulative + size) rest

/-- determine_helper_group from src/players/group5/specialization.py. -/
def determine_helper_group (helper_id num_helpers : ℤ) : Option ℤ :=
  findGroup (helper_id - 2) 0 ((group_sizes (num_helpers - 2)).zip [1000, 2000, 3000, 4000])

/-- is_species_needed from src/players/group5/specialization.py. -/
def is_species_needed (species_id : ℤ) (gender : Gender) (ignore_list : List ℤ)
    (is_specialized : Bool) (to_search_list : List SpeciesGender)
    (obtained_species : Finset SpeciesGender) : Bool :=
  if species_id ∈ ignore_list then false
  else
    let is_needed : Bool :=
      match gender with
      | Gender.Unknown =>
        ! decide ((species_id, Gender.Male) ∈ obtained_species ∧
                  (species_id, Gender.Female) ∈ obtained_species)
      | g => decide ((species_id, g) ∉ obtained_species)
    if ¬ is_needed then false
    else if is_specialized ∧ to_search_list ≠ [] then
      match gender with
      | Gender.Unknown => decide (∃ p ∈ to_search_list, p.1 = species_id)
      | g => decide ((species_id, g) ∈ to_search_list)
    else true

/-- Generalist branch loop of update_to_search_list
(src/players/group5/specialization.py lines 161-171), including the
source comparison of the Male key in the Female append guard. -/
def generalist_loop (obtained_species : Finset SpeciesGender) :
    List (ℤ × ℤ) → List SpeciesGender → List SpeciesGender
  | [], acc => acc
  | (_, species_id) :: rest, acc =>
    if 6 ≤ acc.length then acc
    else
      let acc1 :=
        if (species_id, Gender.Male) ∉ obtained_species ∧
           (species_id, Gender.Male) ∉ acc then acc ++ [(species_id, Gender.Male)]
        else acc
      let acc2 :=
        if (species_id, Gender.Female) ∉ obtained_species ∧
           (species_id, Gender.Male) ∉ acc1 then acc1 ++ [(species_id, Gender.Female)]
        else acc1
      generalist_loop obtained_species rest acc2

/-- Completeness loop of update_to_search_list
(src/players/group5/specialization.py lines 177-185): every resolvable
assigned species has both genders obtained. -/
def spec_complete (species_to_id : List (String × ℤ))
    (obtained_species : Finset SpeciesGender) : List String → Bool
  | [] => true
  | name :: rest =>
    match species_to_id.lookup name with
    | none => spec_complete species_to_id obtained_species rest
    | some species_id =>
      if (species_id, Gender.Male) ∈ obtained_species ∧
         (species_id, Gender.Female) ∈ obtained_species then
        spec_complete species_to_id obtained_species rest
      else false

/-- Reassignment scan of update_to_search_list
(src/players/group5/specialization.py lines 190-203): the first (rarest)
species still missing a gender. -/
def next_rarest (species_to_id : List (String × ℤ))
    (obtained_species : Finset SpeciesGender) : List (String × ℤ) → Option String
  | [] => none
  | (name, _) :: rest =>
    match species_to_id.lookup name with
    | none => next_rarest species_to_id obtained_species rest
    | some species_id =>
      if ¬ ((species_id, Gender.Male) ∈ obtained_species ∧
            (species_id, Gender.Female) ∈ obtained_species) then some name
      else next_rarest species_to_id obtained_species rest

/-- Search-list builder of update_to_search_list
(src/players/group5/specialization.py lines 206-214). -/
def build_search (species_to_id : List (String × ℤ))
    (obtained_species : Finset SpeciesGender) : List String → List SpeciesGender
  | [] => []
  | name :: rest =>
    match species_to_id.lookup name with
    | none => build_search species_to_id obtained_species rest
    | some species_id =>
      (if (species_id, Gender.Male) ∉ obtained_species then [(species_id, Gender.Male)] else []) ++
      (if (species_id, Gender.Female) ∉ obtained_species then [(species_id, Gender.Female)] else []) ++
      build_search species_to_id obtained_species rest

/-- Python sorted with key itemgetter(1): stable sort by the count. -/
def sortByCount (l : List (String × ℤ)) : List (String × ℤ) :=
  l.mergeSort (fun a b => decide (a.2 ≤ b.2))

/-- Python sorted on (count, id) pairs: lexicographic order. -/
def sortLex (l : List (ℤ × ℤ)) : List (ℤ × ℤ) :=
  l.mergeSort (fun a b => decide (a.1 < b.1 ∨ (a.1 = b.1 ∧ a.2 ≤ b.2)))

/-- update_to_search_list from src/players/group5/specialization.py. In the
generalist branch the source indexes species_to_id directly; species_to_id
is built from the keys of species_stats at construction, so the lookup
always succeeds there and the default 0 is never reached. -/
def update_to_search_list (is_specialized : Bool)
    (specialization_target_species : List String)
    (species_stats : List (String × ℤ)) (species_to_id : List (String × ℤ))
    (obtained_species : Finset SpeciesGender) (helper_id : ℤ) (_num_helpers : ℤ) :
    List SpeciesGender × List String :=
  let species_list := sortByCount (species_stats.filter (fun p => 6 ≤ p.2))
  if ¬ is_specialized ∨ helper_id ≤ 2 then
    let species_info := sortLex (species_stats.map (fun p => (p.2, (species_to_id.lookup p.1).getD 0)))
    (generalist_loop obtained_species species_info [], specialization_target_species)
  else
    let current_species_complete := spec_complete species_to_id obtained_species specialization_target_species
    let new_target_species :=
      if current_species_complete then
        match next_rarest species_to_id obtained_species species_list with
        | some name => [name]
        | none => specialization_target_species
      else specialization_target_species
    (build_search species_to_id obtained_species new_target_species, new_target_species)

/-- Key-count in a flock: how many carried animals share the given
(species id, gender) key. -/
def countKey (flock : List Animal) (key : SpeciesGender) : ℕ :=
  (flock.filter (fun b => b.species_id == key.1 && b.gender == key.2)).length

/-- find_duplicate_in_flock from src/players/group5/player.py lines
266-272: the first animal whose key occurs more than once. -/
def find_duplicate_in_flock (flock : List Animal) : Option Animal :=
  flock.find? (fun a => decide (1 < countKey flock (a.species_id, a.gender)))

noncomputable section

open scoped Classical

/-- Center of a perceived cell, as used throughout player.py. -/
def cellCenter (c : CellView) : Pt := ((c.x : ℝ) + 0.5, (c.y : ℝ) + 0.5)

/-- is_valid_target_cell from src/players/group5/targeting.py: not the
current cell, unoccupied, and its center within the safe radius. -/
def is_valid_target_cell (cell_view : CellView) (position : Pt) (ark_pos : Pt)
    (safe_radius : ℝ) : Prop :=
  ¬ (pyInt position.1 = cell_view.x ∧ pyInt position.2 = cell_view.y) ∧
  cell_view.helpers = [] ∧
  is_within_safe_radius (cellCenter cell_view) ark_pos safe_radius

/-- find_cell_with_species from src/players/group5/targeting.py. -/
def find_cell_with_species (sight : Sight) (species_id : ℤ)
    (needed : ℤ → Gender → Bool) (position ark_pos : Pt) (safe_radius : ℝ) :
    Option CellView :=
  match sight with
  | [] => none
  | cell_view :: rest =>
    if is_valid_target_cell cell_view position ark_pos safe_radius ∧
       ∃ a ∈ cell_view.animals, a.species_id = species_id ∧
         needed a.species_id Gender.Unknown = true then some cell_view
    else find_cell_with_species rest species_id needed position ark_pos safe_radius

/-- find_cell_with_needed_animal from src/players/group5/targeting.py. -/
def find_cell_with_needed_animal (sight : Sight) (needed : ℤ → Gender → Bool)
    (position ark_pos : Pt) (safe_radius : ℝ) : Option CellView :=
  match sight with
  | [] => none
  | cell_view :: rest =>
    if is_valid_target_cell cell_view position ark_pos safe_radius ∧
       ∃ a ∈ cell_view.animals, needed a.species_id Gender.Unknown = true then some cell_view
    else find_cell_with_needed_animal rest needed position ark_pos safe_radius

/-- find_needed_animal_in_sight from src/players/group5/targeting.py:
specialized helpers first look for the highest-priority outstanding
species of their search list, then fall back to any needed animal. -/
def find_needed_animal_in_sight (sight : Sight) (is_specialized : Bool)
    (to_search_list : List SpeciesGender) (needed : ℤ → Gender → Bool)
    (position ark_pos : Pt) (safe_radius : ℝ) : Option CellView :=
  let fallback := find_cell_with_needed_animal sight needed position ark_pos safe_radius
  if is_specialized ∧ to_search_list ≠ [] then
    match to_search_list.find? (fun p => needed p.1 Gender.Unknown) with
    | some p =>
      match find_cell_with_species sight p.1 needed position ark_pos safe_radius with
      | some cell => some cell
      | none => fallback
    | none => fallback
  else fallback

/-- Fold of update_obtained_species_from_ark
(src/players/group5/targeting.py lines 28-32) over the ark animals:
accumulates the keyed set, raises the fan-out flag on any known-gender
animal and perturbs the base angle with one rand sample per such animal. -/
def ark_fold (rand : ℕ → ℝ) (base_angle : ℝ) :
    List Animal → Finset SpeciesGender → Bool → ℝ → ℕ → Finset SpeciesGender × Bool × ℝ
  | [], ark_set, fan, ang, _ => (ark_set, fan, ang)
  | a :: rest, ark_set, fan, ang, i =>
    if a.gender ≠ Gender.Unknown then
      ark_fold rand base_angle rest (insert (a.species_id, a.gender) ark_set) true
        (pyMod (base_angle + rand i) (2 * Real.pi)) (i + 1)
    else ark_fold rand base_angle rest ark_set fan ang i

/-- update_obtained_species_from_ark from src/players/group5/targeting.py:
returns the enlarged obtained set, the new fan-out flag (true exactly when
some ark animal has a known gender, false otherwise) and the new base
angle. The Python set iteration order is modelled by the list order. -/
def update_obtained_species_from_ark (rand : ℕ → ℝ) (ark_animals : List Animal)
    (obtained_species : Finset SpeciesGender) (_is_specialized : Bool)
    (_time_elapsed : ℤ) (_helper_id : ℤ) (base_angle : ℝ) :
    Finset SpeciesGender × Bool × ℝ :=
  let r := ark_fold rand base_angle ark_animals ∅ false base_angle 0
  (obtained_species ∪ r.1, r.2.1, r.2.2)

/-- The per-agent mutable state of Player5 (src/players/group5/player.py):
one field per Python instance attribute read or written by
check_surroundings and get_action. kind_is_noah models kind == Kind.Noah;
at_ark additionally backs the is_in_ark call of the exploration logic. -/
structure PlayerState where
  id : ℤ
  kind_is_noah : Bool
  num_helpers : ℤ
  species_stats : List (String × ℤ)
  species_to_id : List (String × ℤ)
  ark_pos : Pt
  position : Pt
  previous_position : Pt
  sight : Sight
  flock : List Animal
  obtained_species : Finset SpeciesGender
  current_target_pos : Option Pt
  animal_target_cell : Option CellView
  ignore_list : List ℤ
  base_angle : ℝ
  is_exploring_fan_out : Bool
  is_specialized : Bool
  specialization_limit : ℤ
  specialization_target_species : List String
  to_search_list : List SpeciesGender
  is_raining : Bool
  rain_start_time : Option ℤ
  time_elapsed : ℤ
  at_ark : Bool

/-- HelperSurroundingsSnapshot from core.snapshots, restricted to the
fields player.py consumes; ark_view is the list of ark animals when the
ark is visible, none otherwise. -/
structure Snapshot where
  position : Pt
  sight : Sight
  is_raining : Bool
  time_elapsed : ℤ
  ark_view : Option (List Animal)
  flock : List Animal

/-- Action from core.action, restricted to the constructors Player5
produces: Move carries the destination, Obtain and Release the animal. -/
inductive PlayerAction
  | Move (dest : Pt)
  | Obtain (animal : Animal)
  | Release (animal : Animal)

/-- Player5._get_turns_remaining_until_end
(src/players/group5/player.py lines 88-94). -/
def get_turns_remaining_until_end (k : Consts) (st : PlayerState) : Option ℤ :=
  if st.is_raining = false ∨ st.rain_start_time = none then none
  else
    match st.rain_start_time with
    | none => none
    | some r => some (k.START_RAIN - (st.time_elapsed - r))

/-- Player5._get_turns_to_reach_ark (src/players/group5/player.py lines
96-102), called without argument: ceiling of the home distance over the
per-turn maximum. -/
def get_turns_to_reach_ark (k : Consts) (st : PlayerState) : ℤ :=
  ⌈get_distance st.position st.ark_pos / k.MAX_DISTANCE_KM⌉

/-- Player5._handle_rain_urgency (src/players/group5/player.py lines
328-343): some (move destination, new current_target_pos) when the time
buffer is critical, none otherwise. -/
def handle_rain_urgency (k : Consts) (st : PlayerState) (current_pos : Pt) :
    Option (Pt × Pt) :=
  match get_turns_remaining_until_end k st with
  | none => none
  | some turns_remaining =>
    let turns_needed := get_turns_to_reach_ark k st
    let time_buffer := turns_remaining - turns_needed
    if time_buffer < 3 then some (get_return_move k current_pos st.ark_pos st.id true)
    else none

/-- Player5._handle_rain_movement (src/players/group5/player.py lines
345-390): some (move destination, updated state) when a rain rule fires,
none otherwise. -/
def handle_rain_movement (k : Consts) (st : PlayerState) (current_pos : Pt) :
    Option (Pt × PlayerState) :=
  match get_turns_remaining_until_end k st with
  | none => none
  | some turns_remaining =>
    let turns_needed := get_turns_to_reach_ark k st
    let time_buffer := turns_remaining - turns_needed
    let distance_to_ark := get_distance current_pos st.ark_pos
    if distance_to_ark < 200 ∧ time_buffer > 200 then
      if 3 ≤ st.flock.length then
        let mt := get_return_move k current_pos st.ark_pos st.id true
        some (mt.1, { st with current_target_pos := some mt.2 })
      else none
    else if distance_to_ark < 500 ∧ time_buffer > 100 then
      match st.animal_target_cell with
      | some cell =>
        if st.flock.length < k.MAX_FLOCK_SIZE then
          let target_dist := get_distance current_pos (cellCenter cell)
          if 15 ≤ target_dist then
            let mt := get_return_move k current_pos st.ark_pos st.id false
            some (mt.1, { st with animal_target_cell := none, current_target_pos := some mt.2 })
          else none
        else
          let mt := get_return_move k current_pos st.ark_pos st.id false
          some (mt.1, { st with current_target_pos := some mt.2 })
      | none =>
        let mt := get_return_move k current_pos st.ark_pos st.id false
        some (mt.1, { st with current_target_pos := some mt.2 })
    else
      let mt := get_return_move k current_pos st.ark_pos st.id true
      some (mt.1, { st with current_target_pos := some mt.2 })

/-- Animal scan of Player5._try_obtain_in_current_cell
(src/players/group5/player.py lines 286-305), threading the ignore list
through the iterations: skip carried animals, ignore redundant known
genders, return the first needed animal. -/
def try_obtain_loop (st : PlayerState) :
    List Animal → List ℤ → Option Animal × List ℤ
  | [], ign => (none, ign)
  | a :: rest, ign =>
    if a ∈ st.flock then try_obtain_loop st rest ign
    else if a.gender ≠ Gender.Unknown ∧ (a.species_id, a.gender) ∈ st.obtained_species then
      let ign1 := if a.species_id ∈ ign then ign else ign ++ [a.species_id]
      try_obtain_loop st rest ign1
    else if is_species_needed a.species_id a.gender ign st.is_specialized
              st.to_search_list st.obtained_species then (some a, ign)
    else try_obtain_loop st rest ign

/-- Player5._try_obtain_in_current_cell (src/players/group5/player.py
lines 274-309): some animal to obtain, plus the state after the ignore
list updates; the cached animal target is cleared whenever the current
cell held animals. -/
def try_obtain_in_current_cell (st : PlayerState) : Option Animal × PlayerState :=
  match get_cellview_at st.sight (pyInt st.position.1) (pyInt st.position.2) with
  | none => (none, st)
  | some cell =>
    if cell.animals = [] then (none, st)
    else
      match try_obtain_loop st cell.animals st.ignore_list with
      | (some a, ign) => (some a, { st with ignore_list := ign, animal_target_cell := none })
      | (none, ign) => (none, { st with ignore_list := ign, animal_target_cell := none })

/-- Player5._handle_animal_chase (src/players/group5/player.py lines
311-326), for the cached cell: abandon targets outside the safe radius in
favor of a spiral return, else step toward the cell center. -/
def handle_animal_chase (k : Consts) (st : PlayerState) (current_pos : Pt)
    (cell : CellView) : Pt × PlayerState :=
  let target_cell_center := cellCenter cell
  if ¬ is_within_safe_radius target_cell_center st.ark_pos SAFE_RADIUS_FROM_ARK then
    let mt := get_return_move k current_pos st.ark_pos st.id false
    (mt.1, { st with animal_target_cell := none, current_target_pos := some mt.2 })
  else (get_move_to_target k current_pos target_cell_center, st)

/-- Player5._handle_fan_out_exploration (src/players/group5/player.py
lines 419-436). -/
def handle_fan_out_exploration (k : Consts) (rand : ℕ → ℝ) (st : PlayerState)
    (current_pos : Pt) : Pt × PlayerState :=
  let new_x := current_pos.1 + Real.cos st.base_angle * k.MAX_DISTANCE_KM
  let new_y := current_pos.2 + Real.sin st.base_angle * k.MAX_DISTANCE_KM
  if ¬ is_within_map_bounds new_x new_y ∨
     ¬ is_within_safe_radius (new_x, new_y) st.ark_pos SAFE_RADIUS_FROM_ARK then
    let st1 := { st with is_exploring_fan_out := false }
    let mt := get_new_random_target k rand current_pos st1.previous_position st1.ark_pos
      SAFE_RADIUS_FROM_ARK st1.current_target_pos
    (mt.1, { st1 with current_target_pos := mt.2 })
  else ((new_x, new_y), { st with current_target_pos := some (new_x, new_y) })

/-- Player5._handle_exploration (src/players/group5/player.py lines
392-417); the is_in_ark call of the source lives in core outside src/ and
is modelled from the spec as the home-base-visible flag at_ark. -/
def handle_exploration (k : Consts) (rand : ℕ → ℝ) (st : PlayerState)
    (current_pos : Pt) : Pt × PlayerState :=
  let pick_new : Prop :=
    st.at_ark = true ∨ st.current_target_pos = none ∨
    (∀ t, st.current_target_pos = some t → get_distance current_pos t < k.MAX_DISTANCE_KM)
  if pick_new then
    if st.is_exploring_fan_out then handle_fan_out_exploration k rand st current_pos
    else
      let mt := get_new_random_target k rand current_pos st.previous_position st.ark_pos
        SAFE_RADIUS_FROM_ARK st.current_target_pos
      (mt.1, { st with current_target_pos := mt.2 })
  else
    match st.current_target_pos with
    | none =>
      let mt := get_new_random_target k rand current_pos st.previous_position st.ark_pos
        SAFE_RADIUS_FROM_ARK st.current_target_pos
      (mt.1, { st with current_target_pos := mt.2 })
    | some t =>
      if ¬ is_within_safe_radius t st.ark_pos SAFE_RADIUS_FROM_ARK then
        let mt := get_return_move k current_pos st.ark_pos st.id false
        (mt.1, { st with current_target_pos := some mt.2 })
      else (get_move_to_target k current_pos t, st)

/-- Acquire-new-target step of Player5.get_action
(src/players/group5/player.py lines 229-248): with room in the flock, ask
targeting for a new cell; if one is found and its center is within the
safe radius, cache it and move toward its center; otherwise fall through
(none). -/
def acquire_new_target (k : Consts) (st1 : PlayerState) (current_pos : Pt) :
    Option (Pt × PlayerState) :=
  if st1.flock.length < k.MAX_FLOCK_SIZE then
    match find_needed_animal_in_sight st1.sight st1.is_specialized
        st1.to_search_list
        (fun sid g => is_species_needed sid g st1.ignore_list
          st1.is_specialized st1.to_search_list st1.obtained_species)
        st1.position st1.ark_pos SAFE_RADIUS_FROM_ARK with
    | some cell =>
      if is_within_safe_radius (cellCenter cell) st1.ark_pos SAFE_RADIUS_FROM_ARK then
        some (get_move_to_target k current_pos (cellCenter cell),
              { st1 with animal_target_cell := some cell })
      else none
    | none => none
  else none

/-- Periodic maintenance step at the top of get_action
(src/players/group5/player.py lines 173-175): clear the ignore list every
250 turns. Only the ignore list is conditionally replaced. -/
def maintain (st : PlayerState) : PlayerState :=
  { st with ignore_list :=
      if 0 < st.time_elapsed ∧ st.time_elapsed % 250 = 0 then [] else st.ignore_list }

/-- Body of Player5.get_action after the maintenance step
(src/players/group5/player.py lines 185-264): the priority ladder. -/
def get_action_core (k : Consts) (rand : ℕ → ℝ) (st : PlayerState) :
    Option PlayerAction × PlayerState :=
  if st.kind_is_noah then (none, st)
  else
    let current_pos := st.position
    if ¬ is_within_safe_radius current_pos st.ark_pos SAFE_RADIUS_FROM_ARK then
      let st1 := { st with animal_target_cell := none, current_target_pos := none }
      let mt := get_return_move k current_pos st1.ark_pos st1.id true
      (some (PlayerAction.Move mt.1), { st1 with current_target_pos := some mt.2 })
    else
      match (if st.is_raining then handle_rain_urgency k st current_pos else none) with
      | some mt => (some (PlayerAction.Move mt.1), { st with current_target_pos := some mt.2 })
      | none =>
        match find_duplicate_in_flock st.flock with
        | some dup =>
          (some (PlayerAction.Release dup),
           { st with ignore_list := st.ignore_list ++ [dup.species_id],
                     animal_target_cell := none })
        | none =>
          if k.MAX_FLOCK_SIZE ≤ st.flock.length then
            let mt := get_return_move k current_pos st.ark_pos st.id true
            (some (PlayerAction.Move mt.1), { st with current_target_pos := some mt.2 })
          else
            match try_obtain_in_current_cell st with
            | (some a, st1) => (some (PlayerAction.Obtain a), st1)
            | (none, st1) =>
              match st1.animal_target_cell with
              | some cell =>
                let r := handle_animal_chase k st1 current_pos cell
                (some (PlayerAction.Move r.1), r.2)
              | none =>
                match acquire_new_target k st1 current_pos with
                | some r => (some (PlayerAction.Move r.1), r.2)
                | none =>
                  match (if st1.is_raining then handle_rain_movement k st1 current_pos else none) with
                  | some r => (some (PlayerAction.Move r.1), r.2)
                  | none =>
                    if 3 ≤ st1.flock.length then
                      let mt := get_return_move k current_pos st1.ark_pos st1.id false
                      (some (PlayerAction.Move mt.1), { st1 with current_target_pos := some mt.2 })
                    else
                      let r := handle_exploration k rand st1 current_pos
                      (some (PlayerAction.Move r.1), r.2)

/-- Player5.get_action (src/players/group5/player.py lines 171-264):
maintenance, then the priority ladder. -/
def get_action (k : Consts) (rand : ℕ → ℝ) (st : PlayerState) :
    Option PlayerAction × PlayerState :=
  get_action_core k rand (maintain st)

/-- Player5.check_surroundings (src/players/group5/player.py lines
105-169): absorb the snapshot, refresh the obtained set from a visible
ark and from the carried flock, run the specialization switch, and clear
a reached animal target. -/
def check_surroundings (rand : ℕ → ℝ) (st0 : PlayerState)
    (snap : Snapshot) : PlayerState :=
  let st3 := { st0 with position := snap.position, sight := snap.sight,
                        rain_start_time :=
                          if snap.is_raining && ! st0.is_raining then some snap.time_elapsed
                          else st0.rain_start_time,
                        is_raining := snap.is_raining, time_elapsed := snap.time_elapsed,
                        at_ark := snap.ark_view.isSome, flock := snap.flock }
  let st4 :=
    if st3.kind_is_noah then st3
    else
      let st5 :=
        match snap.ark_view with
        | some ark_animals =>
          let r := update_obtained_species_from_ark rand ark_animals st3.obtained_species
            st3.is_specialized st3.time_elapsed st3.id st3.base_angle
          let st6 := { st3 with obtained_species := r.1, is_exploring_fan_out := r.2.1,
                                base_angle := r.2.2 }
          if st6.is_specialized ∧ 1000 < st6.time_elapsed then
            { st6 with is_specialized := false, specialization_limit := 0,
                       specialization_target_species := [], to_search_list := [] }
          else if st6.is_specialized then
            let u := update_to_search_list st6.is_specialized
              st6.specialization_target_species st6.species_stats st6.species_to_id
              st6.obtained_species st6.id st6.num_helpers
            { st6 with to_search_list := u.1, specialization_target_species := u.2 }
          else st6
        | none => st3
      let ob2 := st5.flock.foldl
        (fun ob a => if a.gender ≠ Gender.Unknown then insert (a.species_id, a.gender) ob else ob)
        st5.obtained_species
      { st5 with obtained_species := ob2 }
  let st7 := { st4 with previous_position := st4.position }
  match st7.animal_target_cell with
  | some cell =>
    if pyInt st7.position.1 = cell.x ∧ pyInt st7.position.2 = cell.y then
      { st7 with animal_target_cell := none }
    else st7
  | none => st7

end

/-- Specialization-related fields of the player state that get_action must
leave untouched: is_specialized, specialization_target_species,
to_search_list. -/
def frame3 (st : PlayerState) : Bool × List String × List SpeciesGender :=
  (st.is_specialized, st.specialization_target_species, st.to_search_list)

/-- The clamped backtrack angle between the previous-movement vector and a
candidate direction vector, as computed in get_new_random_target. -/
noncomputable def backtrack_angle (prev_v new_v : Pt) : ℝ :=
  Real.arccos (max (-1) (min 1 ((prev_v.1 * new_v.1 + prev_v.2 * new_v.2) /
    (Real.sqrt (prev_v.1 ^ 2 + prev_v.2 ^ 2) * Real.sqrt (new_v.1 ^ 2 + new_v.2 ^ 2)))))

/-- Concrete constants for witnesses and counterexamples: per-turn maximum
10, epsilon one half, flock capacity 5, rain deadline 1000. -/
noncomputable def k0 : Consts := ⟨10, 1/2, 5, 1000⟩

/-- Concrete randomness oracle: every sample is 0. -/
def rand0 : ℕ → ℝ := fun _ => 0

/-- A concrete baseline player state used by witnesses and
counterexamples: helper 3 of 5, ark and position at (500, 500), empty
perception and flock, not raining, turn 1. -/
noncomputable def baseState : PlayerState where
  id := 3
  kind_is_noah := false
  num_helpers := 5
  species_stats := []
  species_to_id := []
  ark_pos := (500, 500)
  position := (500, 500)
  previous_position := (500, 500)
  sight := []
  flock := []
  obtained_species := ∅
  current_target_pos := none
  animal_target_cell := none
  ignore_list := []
  base_angle := 0
  is_exploring_fan_out := true
  is_specialized := false
  specialization_limit := 0
  specialization_target_species := []
  to_search_list := []
  is_raining := false
  rain_start_time := none
  time_elapsed := 1
  at_ark := false

/-- State for the C1 witness: beyond the safe radius at (1600, 500). -/
noncomputable def stC1 : PlayerState := { baseState with position := ((1600 : ℝ), (500 : ℝ)) }

/-- State for the C2 witness: raining since turn 0, now turn 998. -/
noncomputable def stC2 : PlayerState :=
  { baseState with is_raining := true, rain_start_time := some 0, time_elapsed := 998 }

/-- The duplicate animal released in the C3 scenario. -/
def aDup : Animal := ⟨0, 7, Gender.Male⟩

/-- State for C3: a flock of three animals all keyed (7, Male). -/
noncomputable def stC3 : PlayerState :=
  { baseState with flock := [⟨0, 7, Gender.Male⟩, ⟨1, 7, Gender.Male⟩, ⟨2, 7, Gender.Male⟩] }

/-- State for the C4 counterexample: a full flock of five containing a
duplicate (1, Male) key. -/
noncomputable def stC4 : PlayerState :=
  { baseState with flock := [⟨0, 1, Gender.Male⟩, ⟨1, 1, Gender.Male⟩, ⟨2, 2, Gender.Female⟩,
                             ⟨3, 3, Gender.Male⟩, ⟨4, 4, Gender.Female⟩] }

/-- State for the C4 witness: a full flock of five with pairwise distinct
keys. -/
noncomputable def stC4w : PlayerState :=
  { baseState with flock := [⟨0, 1, Gender.Male⟩, ⟨1, 1, Gender.Female⟩, ⟨2, 2, Gender.Male⟩,
                             ⟨3, 2, Gender.Female⟩, ⟨4, 3, Gender.Male⟩] }

/-- State for C5: a specialized agent with a live target and search list. -/
noncomputable def stC5 : PlayerState :=
  { baseState with is_specialized := true, specialization_target_species := ["wolf"],
                   to_search_list := [((0 : ℤ), Gender.Male)] }

/-- Snapshot for the C5 counterexample: turn 1001, home base not visible. -/
noncomputable def snapC5 : Snapshot := ⟨(500, 500), [], false, 1001, none, []⟩

/-- Snapshot for the C5 witness: turn 1001 with the home base visible. -/
noncomputable def snapC5w : Snapshot := ⟨(500, 500), [], false, 1001, some [], []⟩

/-- State for C6: the fan-out-exploration flag already cleared. -/
noncomputable def stC6 : PlayerState := { baseState with is_exploring_fan_out := false }

/-- Snapshot for the C6 counterexample: the home base visible with one
known-gender animal aboard. -/
noncomputable def snapC6 : Snapshot := ⟨(500, 500), [], false, 5, some [⟨0, 7, Gender.Male⟩], []⟩

/-- Snapshot for the C6 witness: home base not visible. -/
noncomputable def snapC6w : Snapshot := ⟨(500, 500), [], false, 5, none, []⟩

section GeometryLemmas

lemma sqrtEval (a b : ℝ) (hb : 0 ≤ b) (h : b ^ 2 = a) : Real.sqrt a = b := by
  subst h
  exact Real.sqrt_sq hb

lemma get_distance_self (p : Pt) : get_distance p p = 0 := by
  simp [get_distance]

lemma get_distance_nonneg (p q : Pt) : 0 ≤ get_distance p q :=
  Real.sqrt_nonneg _

lemma get_distance_offset (p : Pt) (t dx dy : ℝ) (ht : 0 ≤ t) :
    get_distance p (p.1 + t * dx, p.2 + t * dy) = t * Real.sqrt (dx ^ 2 + dy ^ 2) := by
  unfold get_distance
  have h : (p.1 - (p.1 + t * dx)) ^ 2 + (p.2 - (p.2 + t * dy)) ^ 2
      = t ^ 2 * (dx ^ 2 + dy ^ 2) := by ring
  rw [h, Real.sqrt_mul (sq_nonneg t), Real.sqrt_sq ht]

lemma get_distance_sub (p q : Pt) :
    Real.sqrt ((q.1 - p.1) ^ 2 + (q.2 - p.2) ^ 2) = get_distance p q := by
  unfold get_distance
  congr 1
  ring

lemma move_self (k : Consts) (heps : 0 < k.EPS) (p : Pt) :
    get_move_to_target k p p = p := by
  simp only [get_move_to_target]
  rw [if_pos (by rw [get_distance_self]; exact heps)]

lemma dist_move_eq (k : Consts) (p q : Pt) (heps : 0 < k.EPS)
    (hmax : 0 ≤ k.MAX_DISTANCE_KM) (hnd : ¬ get_distance p q < k.EPS) :
    get_distance p (get_move_to_target k p q)
      = min (get_distance p q) k.MAX_DISTANCE_KM := by
  have hD : 0 < get_distance p q := lt_of_lt_of_le heps (not_lt.mp hnd)
  simp only [get_move_to_target]
  rw [if_neg hnd]
  have h1 : (q.1 - p.1) / get_distance p q * min (get_distance p q) k.MAX_DISTANCE_KM
      = (min (get_distance p q) k.MAX_DISTANCE_KM / get_distance p q) * (q.1 - p.1) := by ring
  have h2 : (q.2 - p.2) / get_distance p q * min (get_distance p q) k.MAX_DISTANCE_KM
      = (min (get_distance p q) k.MAX_DISTANCE_KM / get_distance p q) * (q.2 - p.2) := by ring
  rw [h1, h2]
  rw [get_distance_offset p _ _ _
    (div_nonneg (le_min hD.le hmax) hD.le)]
  rw [get_distance_sub]
  rw [div_mul_cancel₀ _ (ne_of_gt hD)]

lemma dist_move_le (k : Consts) (p q : Pt) (heps : 0 < k.EPS)
    (hem : k.EPS ≤ k.MAX_DISTANCE_KM) :
    get_distance p (get_move_to_target k p q) ≤ k.MAX_DISTANCE_KM := by
  by_cases hd : get_distance p q < k.EPS
  · simp only [get_move_to_target]
    rw [if_pos hd]
    exact le_trans (le_of_lt hd) hem
  · rw [dist_move_eq k p q heps (le_trans heps.le hem) hd]
    exact min_le_right _ _

lemma move_eq_target_of_lt (k : Consts) (p q : Pt) (heps : 0 < k.EPS)
    (h : get_distance p q < k.MAX_DISTANCE_KM) :
    get_move_to_target k p q = q := by
  simp only [get_move_to_target]
  by_cases hd : get_distance p q < k.EPS
  · rw [if_pos hd]
  · rw [if_neg hd]
    have hD : 0 < get_distance p q := lt_of_lt_of_le heps (not_lt.mp hd)
    rw [min_eq_left (le_of_lt h)]
    have h1 : (q.1 - p.1) / get_distance p q * get_distance p q = q.1 - p.1 :=
      div_mul_cancel₀ _ (ne_of_gt hD)
    have h2 : (q.2 - p.2) / get_distance p q * get_distance p q = q.2 - p.2 :=
      div_mul_cancel₀ _ (ne_of_gt hD)
    rw [h1, h2]
    exact Prod.ext (by ring) (by ring)

lemma move_segment (k : Consts) (p q : Pt) (heps : 0 < k.EPS)
    (hem : k.EPS ≤ k.MAX_DISTANCE_KM) :
    ∃ t : ℝ, 0 ≤ t ∧ t ≤ 1 ∧
      get_move_to_target k p q = (p.1 + t * (q.1 - p.1), p.2 + t * (q.2 - p.2)) := by
  by_cases hd : get_distance p q < k.EPS
  · refine ⟨1, zero_le_one, le_refl 1, ?_⟩
    simp only [get_move_to_target]
    rw [if_pos hd]
    exact Prod.ext (by ring) (by ring)
  · have hD : 0 < get_distance p q := lt_of_lt_of_le heps (not_lt.mp hd)
    refine ⟨min (get_distance p q) k.MAX_DISTANCE_KM / get_distance p q,
      div_nonneg (le_min hD.le (le_trans heps.le hem)) hD.le,
      (div_le_one hD).mpr (min_le_left _ _), ?_⟩
    simp only [get_move_to_target]
    rw [if_neg hd]
    exact Prod.ext (by ring) (by ring)

end GeometryLemmas

/-- C8: step_toward applied to (p, p) returns p; for any p, q the result
lies on the segment from p toward q, the step length is at most the
per-turn maximum, the step length equals the maximum whenever the distance
is at least the maximum, and when the distance is below the maximum the
result is exactly q (the sub-epsilon branch returns the target directly).
The core constants are assumed to satisfy 0 < EPS and EPS at most the
per-turn maximum, per the spec description of EPS as a small epsilon. -/
theorem claim_C8 (k : Consts) (heps : 0 < k.EPS) (hem : k.EPS ≤ k.MAX_DISTANCE_KM)
    (p q : Pt) :
    get_move_to_target k p p = p ∧
    (∃ t : ℝ, 0 ≤ t ∧ t ≤ 1 ∧
      get_move_to_target k p q = (p.1 + t * (q.1 - p.1), p.2 + t * (q.2 - p.2))) ∧
    get_distance p (get_move_to_target k p q) ≤ k.MAX_DISTANCE_KM ∧
    (k.MAX_DISTANCE_KM ≤ get_distance p q →
      get_distance p (get_move_to_target k p q) = k.MAX_DISTANCE_KM) ∧
    (get_distance p q < k.MAX_DISTANCE_KM → get_move_to_target k p q = q) := by
  refine ⟨move_self k heps p, move_segment k p q heps hem,
    dist_move_le k p q heps hem, ?_, move_eq_target_of_lt k p q heps⟩
  intro hge
  have hnd : ¬ get_distance p q < k.EPS := by
    push_neg
    exact le_trans hem hge
  rw [dist_move_eq k p q heps (le_trans heps.le hem) hnd]
  exact min_eq_right hge

/-- Witness for C8 at the concrete constants k0, p the origin and q
equal to (3, 4). -/
theorem claim_C8_witness :
    (0 : ℝ) < k0.EPS ∧
    get_move_to_target k0 ((0 : ℝ), (0 : ℝ)) ((0 : ℝ), (0 : ℝ)) = ((0 : ℝ), (0 : ℝ)) ∧
    get_distance ((0 : ℝ), (0 : ℝ))
      (get_move_to_target k0 ((0 : ℝ), (0 : ℝ)) ((3 : ℝ), (4 : ℝ))) ≤ k0.MAX_DISTANCE_KM := by
  have h := claim_C8 k0 (by norm_num [k0]) (by norm_num [k0]) ((0 : ℝ), (0 : ℝ)) ((3 : ℝ), (4 : ℝ))
  exact ⟨by norm_num [k0], h.1, h.2.2.1⟩

/-- C10: the constructor's base-angle computation fails (ZeroDivisionError)
for fleet size 1 and any positive ordinal, and for fleet size at least 2
it is defined and equals 2 pi (id - 1) / (num_helpers - 1). -/
theorem claim_C10 :
    (∀ id : ℤ, 0 < id → init_base_angle id 1 = none) ∧
    (∀ id num_helpers : ℤ, 0 < id → 2 ≤ num_helpers →
      init_base_angle id num_helpers
        = some ((2 * Real.pi * ((id : ℝ) - 1)) / ((num_helpers : ℝ) - 1))) := by
  constructor
  · intro id h
    simp only [init_base_angle]
    rw [if_pos h, if_pos (by norm_num)]
  · intro id num_helpers h h2
    simp only [init_base_angle]
    rw [if_pos h, if_neg (by omega)]

/-- Witness for C10 at ordinal 3: fleet size 1 fails, fleet size 5 gives
the angle pi. -/
theorem claim_C10_witness :
    (0 : ℤ) < 3 ∧ init_base_angle 3 1 = none := by
  exact ⟨by norm_num, claim_C10.1 3 (by norm_num)⟩

lemma findGroup_cover (gid a b c d : ℤ) (ha : 0 ≤ a) (hb : 0 ≤ b) (hc : 0 ≤ c)
    (hd : 0 ≤ d) (h1 : 1 ≤ gid) (h2 : gid ≤ a + b + c + d) :
    (findGroup gid 0 [(a, 1000), (b, 2000), (c, 3000), (d, 4000)]).isSome = true := by
  simp only [findGroup]
  split_ifs <;> simp_all <;> omega

lemma group_sizes_zip (n : ℤ) :
    (group_sizes n).zip [(1000 : ℤ), 2000, 3000, 4000]
      = [(⌈(30 * n : ℚ) / 100⌉, 1000), (⌈(30 * n : ℚ) / 100⌉, 2000),
         (⌈(25 * n : ℚ) / 100⌉, 3000),
         (max 0 (n - (⌈(30 * n : ℚ) / 100⌉ + ⌈(30 * n : ℚ) / 100⌉ + ⌈(25 * n : ℚ) / 100⌉)), 4000)] := by
  rfl

/-- C7: for a specialized-agent count N at least 0, every specialized
ordinal (group id 1..N, that is helper id 3..N+2 in a fleet of N+2) is
assigned exactly one rarity tier by determine_helper_group; the four group
sizes sum to N exactly when the three ceiling shares total at most N, and
in general the sum is at least N (the last group absorbs a nonnegative
remainder, but the ceiling overshoot of the first three groups is never
trimmed, so for small N the sizes can sum to more than N). -/
theorem claim_C7 (n : ℤ) (hn : 0 ≤ n) :
    (∀ gid : ℤ, 1 ≤ gid → gid ≤ n →
      (determine_helper_group (gid + 2) (n + 2)).isSome = true) ∧
    (⌈(30 * n : ℚ) / 100⌉ + ⌈(30 * n : ℚ) / 100⌉ + ⌈(25 * n : ℚ) / 100⌉ ≤ n →
      (group_sizes n).sum = n) ∧
    n ≤ (group_sizes n).sum := by
  have hq : (0 : ℚ) ≤ (n : ℚ) := by exact_mod_cast hn
  have h30 : (0 : ℚ) ≤ (30 * n : ℚ) / 100 := by positivity
  have h25 : (0 : ℚ) ≤ (25 * n : ℚ) / 100 := by positivity
  have hs1 : 0 ≤ ⌈(30 * n : ℚ) / 100⌉ := Int.ceil_nonneg h30
  have hs3 : 0 ≤ ⌈(25 * n : ℚ) / 100⌉ := Int.ceil_nonneg h25
  have hsum : (group_sizes n).sum
      = ⌈(30 * n : ℚ) / 100⌉ + ⌈(30 * n : ℚ) / 100⌉ + ⌈(25 * n : ℚ) / 100⌉
        + max 0 (n - (⌈(30 * n : ℚ) / 100⌉ + ⌈(30 * n : ℚ) / 100⌉ + ⌈(25 * n : ℚ) / 100⌉)) := by
    simp [group_sizes]
    ring
  refine ⟨?_, ?_, ?_⟩
  · intro gid h1 h2
    have hz : gid + 2 - 2 = gid := by ring
    have hz2 : n + 2 - 2 = n := by ring
    unfold determine_helper_group
    rw [hz, hz2, group_sizes_zip]
    exact findGroup_cover gid _ _ _ _ hs1 hs1 hs3 (le_max_left _ _) h1 (by omega)
  · intro hle
    rw [hsum]
    omega
  · rw [hsum]
    omega

/-- Counterexample to C7 as stated: for N equal to 4 specialized ordinals
the four computed group sizes are 2, 2, 1 and 0, which sum to 5, not 4. -/
theorem claim_C7_counterexample : (group_sizes 4).sum = 5 ∧ (5 : ℤ) ≠ 4 := by
  constructor
  · have h1 : ⌈(30 * (4 : ℤ) : ℚ) / 100⌉ = 2 := by
      rw [Int.ceil_eq_iff]
      norm_num
    have h2 : ⌈(25 * (4 : ℤ) : ℚ) / 100⌉ = 1 := by
      rw [Int.ceil_eq_iff]
      norm_num
    simp only [group_sizes]
    push_cast at h1 h2 ⊢
    rw [h1, h2]
    simp
  · decide

/-- Witness for C7 at N equal to 10: group id 5 is assigned a tier and the
sizes sum to exactly 10. -/
theorem claim_C7_witness :
    (determine_helper_group 7 12).isSome = true ∧ (group_sizes 10).sum = 10 := by
  have h := claim_C7 10 (by norm_num)
  refine ⟨h.1 5 (by norm_num) (by norm_num), h.2.1 ?_⟩
  have h1 : ⌈(30 * (10 : ℤ) : ℚ) / 100⌉ = 3 := by
    rw [Int.ceil_eq_iff]
    norm_num
  have h2 : ⌈(25 * (10 : ℤ) : ℚ) / 100⌉ = 3 := by
    rw [Int.ceil_eq_iff]
    norm_num
  push_cast at h1 h2 ⊢
  rw [h1, h2]
  norm_num

lemma get_return_move_direct (k : Consts) (p ark : Pt) (hid : ℤ) :
    get_return_move k p ark hid true = (get_move_to_target k p ark, ark) := by
  unfold get_return_move
  rw [if_pos (Or.inl rfl)]

lemma get_action_eq (k : Consts) (rand : ℕ → ℝ) (st : PlayerState) :
    get_action k rand st = get_action_core k rand (maintain st) := rfl

lemma handle_rain_urgency_eq (k : Consts) (st : PlayerState) (pos : Pt) (r : ℤ)
    (hr : st.is_raining = true) (hst : st.rain_start_time = some r)
    (hbuf : k.START_RAIN - (st.time_elapsed - r) - get_turns_to_reach_ark k st < 3) :
    handle_rain_urgency k st pos = some (get_return_move k pos st.ark_pos st.id true) := by
  unfold handle_rain_urgency get_turns_remaining_until_end
  rw [hr, hst]
  simp only [Bool.true_eq_false, or_self, if_false, reduceCtorEq, or_false]
  rw [if_pos hbuf]

lemma handle_rain_urgency_some (k : Consts) (st : PlayerState) (pos : Pt)
    (mt : Pt × Pt) (h : handle_rain_urgency k st pos = some mt) :
    mt = get_return_move k pos st.ark_pos st.id true := by
  unfold handle_rain_urgency at h
  rcases hh : get_turns_remaining_until_end k st with _ | tr
  · rw [hh] at h
    cases h
  · rw [hh] at h
    simp only at h
    split_ifs at h
    exact (Option.some.injEq _ _ ▸ h.symm)

lemma get_action_core_emergency (k : Consts) (rand : ℕ → ℝ) (st : PlayerState)
    (hk : st.kind_is_noah = false)
    (hout : ¬ is_within_safe_radius st.position st.ark_pos SAFE_RADIUS_FROM_ARK) :
    get_action_core k rand st =
      (some (PlayerAction.Move (get_move_to_target k st.position st.ark_pos)),
       { st with animal_target_cell := none, current_target_pos := some st.ark_pos }) := by
  unfold get_action_core
  rw [hk]
  simp only [Bool.false_eq_true, if_false]
  rw [if_pos hout, get_return_move_direct]

lemma get_action_core_rain (k : Consts) (rand : ℕ → ℝ) (st : PlayerState)
    (mt : Pt × Pt) (hk : st.kind_is_noah = false)
    (hin : is_within_safe_radius st.position st.ark_pos SAFE_RADIUS_FROM_ARK)
    (hr : st.is_raining = true)
    (hu : handle_rain_urgency k st st.position = some mt) :
    get_action_core k rand st =
      (some (PlayerAction.Move mt.1), { st with current_target_pos := some mt.2 }) := by
  unfold get_action_core
  rw [hk]
  simp only [Bool.false_eq_true, if_false]
  rw [if_neg (not_not_intro hin), hr]
  simp only [if_true]
  rw [hu]

lemma get_action_core_dup (k : Consts) (rand : ℕ → ℝ) (st : PlayerState)
    (d : Animal) (hk : st.kind_is_noah = false)
    (hin : is_within_safe_radius st.position st.ark_pos SAFE_RADIUS_FROM_ARK)
    (hnu : (if st.is_raining then handle_rain_urgency k st st.position else none) = none)
    (hd : find_duplicate_in_flock st.flock = some d) :
    get_action_core k rand st =
      (some (PlayerAction.Release d),
       { st with ignore_list := st.ignore_list ++ [d.species_id],
                 animal_target_cell := none }) := by
  unfold get_action_core
  rw [hk]
  simp only [Bool.false_eq_true, if_false]
  rw [if_neg (not_not_intro hin), hnu, hd]

lemma get_action_core_full (k : Consts) (rand : ℕ → ℝ) (st : PlayerState)
    (hk : st.kind_is_noah = false)
    (hin : is_within_safe_radius st.position st.ark_pos SAFE_RADIUS_FROM_ARK)
    (hnu : (if st.is_raining then handle_rain_urgency k st st.position else none) = none)
    (hnd : find_duplicate_in_flock st.flock = none)
    (hfull : k.MAX_FLOCK_SIZE ≤ st.flock.length) :
    get_action_core k rand st =
      (some (PlayerAction.Move (get_move_to_target k st.position st.ark_pos)),
       { st with current_target_pos := some st.ark_pos }) := by
  unfold get_action_core
  rw [hk]
  simp only [Bool.false_eq_true, if_false]
  rw [if_neg (not_not_intro hin), hnu, hnd]
  rw [if_pos hfull, get_return_move_direct]

/-- C1: for every non-Noah state strictly beyond the safe radius,
get_action clears the cached animal-target cell, discards the standing
exploration target (replacing it by the ark as the new return target) and
returns the direct move toward the ark, whose step length is at most the
per-turn maximum and which lies on the segment from the position to the
ark; the branch precedes every other rule. The core constants are assumed
to satisfy 0 < EPS and EPS at most the per-turn maximum. -/
theorem claim_C1 (k : Consts) (rand : ℕ → ℝ) (st : PlayerState)
    (hk : st.kind_is_noah = false)
    (hout : ¬ is_within_safe_radius st.position st.ark_pos SAFE_RADIUS_FROM_ARK)
    (heps : 0 < k.EPS) (hem : k.EPS ≤ k.MAX_DISTANCE_KM) :
    (get_action k rand st).1
        = some (PlayerAction.Move (get_move_to_target k st.position st.ark_pos)) ∧
    (get_action k rand st).2.animal_target_cell = none ∧
    (get_action k rand st).2.current_target_pos = some st.ark_pos ∧
    get_distance st.position (get_move_to_target k st.position st.ark_pos)
      ≤ k.MAX_DISTANCE_KM ∧
    (∃ t : ℝ, 0 ≤ t ∧ t ≤ 1 ∧ get_move_to_target k st.position st.ark_pos
        = (st.position.1 + t * (st.ark_pos.1 - st.position.1),
           st.position.2 + t * (st.ark_pos.2 - st.position.2))) := by
  have h := get_action_core_emergency k rand (maintain st) hk hout
  rw [get_action_eq, h]
  exact ⟨rfl, rfl, rfl, dist_move_le k _ _ heps hem, move_segment k _ _ heps hem⟩

/-- Witness for C1: the spec scenario with the ark at (500, 500) and the
agent at (1600, 500), distance 1100 beyond the safe radius 1000. -/
theorem claim_C1_witness :
    (get_action k0 rand0 stC1).1
        = some (PlayerAction.Move (get_move_to_target k0 stC1.position stC1.ark_pos)) ∧
    (get_action k0 rand0 stC1).2.animal_target_cell = none ∧
    get_distance stC1.position (get_move_to_target k0 stC1.position stC1.ark_pos)
      ≤ k0.MAX_DISTANCE_KM := by
  have hdist : get_distance stC1.position stC1.ark_pos = 1100 := by
    show Real.sqrt (((1600 : ℝ) - 500) ^ 2 + ((500 : ℝ) - 500) ^ 2) = 1100
    apply sqrtEval
    · norm_num
    · norm_num
  have hout : ¬ is_within_safe_radius stC1.position stC1.ark_pos SAFE_RADIUS_FROM_ARK := by
    unfold is_within_safe_radius
    rw [hdist]
    norm_num [SAFE_RADIUS_FROM_ARK]
  have h := claim_C1 k0 rand0 stC1 rfl hout (by norm_num [k0]) (by norm_num [k0])
  exact ⟨h.1, h.2.1, h.2.2.2.1⟩

/-- C2: for every non-Noah state within the safe radius with the rain
clock active, if the buffer (rain-deadline constant minus turns since rain
start, minus the ceiling of the home distance over the per-turn maximum)
is strictly below 3, get_action returns the direct-return move toward the
ark. -/
theorem claim_C2 (k : Consts) (rand : ℕ → ℝ) (st : PlayerState) (r : ℤ)
    (hk : st.kind_is_noah = false)
    (hin : is_within_safe_radius st.position st.ark_pos SAFE_RADIUS_FROM_ARK)
    (hr : st.is_raining = true) (hst : st.rain_start_time = some r)
    (hbuf : (k.START_RAIN - (st.time_elapsed - r))
        - ⌈get_distance st.position st.ark_pos / k.MAX_DISTANCE_KM⌉ < 3) :
    (get_action k rand st).1
        = some (PlayerAction.Move (get_move_to_target k st.position st.ark_pos)) ∧
    (get_action k rand st).2.current_target_pos = some st.ark_pos := by
  have hu := handle_rain_urgency_eq k (maintain st) (maintain st).position r hr hst hbuf
  have h := get_action_core_rain k rand (maintain st) _ hk hin hr hu
  rw [get_action_eq, h, get_return_move_direct]
  exact ⟨rfl, rfl⟩

/-- Witness for C2: raining since turn 0, turn 998, deadline constant
1000, agent standing on the ark (0 turns needed), buffer 2 below 3. -/
theorem claim_C2_witness :
    (get_action k0 rand0 stC2).1
        = some (PlayerAction.Move (get_move_to_target k0 stC2.position stC2.ark_pos)) ∧
    (get_action k0 rand0 stC2).2.current_target_pos = some stC2.ark_pos := by
  have hd0 : get_distance stC2.position stC2.ark_pos = 0 := get_distance_self _
  have hin : is_within_safe_radius stC2.position stC2.ark_pos SAFE_RADIUS_FROM_ARK := by
    unfold is_within_safe_radius
    rw [hd0]
    norm_num [SAFE_RADIUS_FROM_ARK]
  have hbuf : (k0.START_RAIN - (stC2.time_elapsed - 0))
      - ⌈get_distance stC2.position stC2.ark_pos / k0.MAX_DISTANCE_KM⌉ < 3 := by
    rw [hd0]
    show ((1000 : ℤ) - (998 - 0)) - ⌈(0 : ℝ) / (10 : ℝ)⌉ < 3
    norm_num
  exact claim_C2 k0 rand0 stC2 0 rfl hin rfl rfl hbuf

lemma countKey_erase (flock : List Animal) (d : Animal) (hmem : d ∈ flock) :
    countKey flock (d.species_id, d.gender)
      = countKey (flock.erase d) (d.species_id, d.gender) + 1 := by
  have hperm := List.perm_cons_erase hmem
  unfold countKey
  rw [← List.countP_eq_length_filter, ← List.countP_eq_length_filter,
    hperm.countP_eq, List.countP_cons_of_pos]
  simp

/-- C3 amended: when no emergency or rain-urgency rule fires and the flock
holds two animals of the same (species, gender) key, get_action releases
the first such animal, appends its species id to the (possibly
periodically cleared) ignore list and clears the animal target; the
released key occurred at least twice, its count drops by exactly one, and
in particular when that key occurred at most twice the remaining flock
holds it at most once. (The original claim, that the remaining flock has
no key of count above 1, fails when a key occurs three times.) -/
theorem claim_C3 (k : Consts) (rand : ℕ → ℝ) (st : PlayerState) (d : Animal)
    (hk : st.kind_is_noah = false)
    (hin : is_within_safe_radius st.position st.ark_pos SAFE_RADIUS_FROM_ARK)
    (hnu : st.is_raining = true → handle_rain_urgency k st st.position = none)
    (hd : find_duplicate_in_flock st.flock = some d) :
    (get_action k rand st).1 = some (PlayerAction.Release d) ∧
    (get_action k rand st).2.ignore_list = (maintain st).ignore_list ++ [d.species_id] ∧
    (get_action k rand st).2.animal_target_cell = none ∧
    2 ≤ countKey st.flock (d.species_id, d.gender) ∧
    countKey (st.flock.erase d) (d.species_id, d.gender)
      = countKey st.flock (d.species_id, d.gender) - 1 ∧
    (countKey st.flock (d.species_id, d.gender) ≤ 2 →
      countKey (st.flock.erase d) (d.species_id, d.gender) ≤ 1) := by
  have hnu' : (if (maintain st).is_raining then
      handle_rain_urgency k (maintain st) (maintain st).position else none) = none := by
    show (if st.is_raining then handle_rain_urgency k st st.position else none) = none
    by_cases hr : st.is_raining = true
    · rw [if_pos hr]
      exact hnu hr
    · rw [if_neg hr]
  have h := get_action_core_dup k rand (maintain st) d hk hin hnu' hd
  have hd' : st.flock.find?
      (fun a => decide (1 < countKey st.flock (a.species_id, a.gender))) = some d := hd
  have hp := List.find?_some hd'
  have hmem : d ∈ st.flock := List.mem_of_find?_eq_some hd'
  have hcnt : 1 < countKey st.flock (d.species_id, d.gender) := of_decide_eq_true hp
  have her := countKey_erase st.flock d hmem
  rw [get_action_eq, h]
  exact ⟨rfl, rfl, rfl, hcnt, by omega, by omega⟩

/-- Counterexample to C3 as stated: with a flock of three animals all
keyed (7, Male), get_action releases one of them, yet the remaining flock
still holds that key twice, so it does have a key with count above 1. -/
theorem claim_C3_counterexample :
    (get_action k0 rand0 stC3).1 = some (PlayerAction.Release aDup) ∧
    1 < countKey (stC3.flock.erase aDup) (7, Gender.Male) := by
  constructor
  · have h0 : get_distance stC3.position stC3.ark_pos = 0 := get_distance_self _
    have hin : is_within_safe_radius stC3.position stC3.ark_pos SAFE_RADIUS_FROM_ARK := by
      unfold is_within_safe_radius
      rw [h0]
      norm_num [SAFE_RADIUS_FROM_ARK]
    have hnu' : (if (maintain stC3).is_raining then
        handle_rain_urgency k0 (maintain stC3) (maintain stC3).position else none) = none := by
      rw [if_neg (by decide)]
    have h := get_action_core_dup k0 rand0 (maintain stC3) aDup rfl hin hnu' (by decide)
    rw [get_action_eq, h]
  · decide

/-- Witness for the amended C3 at the triplicate-flock state. -/
theorem claim_C3_witness :
    (get_action k0 rand0 stC3).1 = some (PlayerAction.Release aDup) ∧
    2 ≤ countKey stC3.flock (aDup.species_id, aDup.gender) := by
  have h0 : get_distance stC3.position stC3.ark_pos = 0 := get_distance_self _
  have hin : is_within_safe_radius stC3.position stC3.ark_pos SAFE_RADIUS_FROM_ARK := by
    unfold is_within_safe_radius
    rw [h0]
    norm_num [SAFE_RADIUS_FROM_ARK]
  have hnu : stC3.is_raining = true → handle_rain_urgency k0 stC3 stC3.position = none := by
    intro hcon
    exact absurd hcon (by decide)
  have h := claim_C3 k0 rand0 stC3 aDup rfl hin hnu (by decide)
  exact ⟨h.1, h.2.2.2.1⟩

/-- C4 amended: within the safe radius with the flock at capacity,
get_action never returns an Obtain; when the full flock additionally
contains no duplicate key it returns the direct-return move toward the ark
(either through the rain-urgency rule or the flock-full rule, which
produce the same direct move). (The original claim fails when the full
flock contains a duplicate key: a Release is returned instead.) -/
theorem claim_C4 (k : Consts) (rand : ℕ → ℝ) (st : PlayerState)
    (hk : st.kind_is_noah = false)
    (hin : is_within_safe_radius st.position st.ark_pos SAFE_RADIUS_FROM_ARK)
    (hfull : k.MAX_FLOCK_SIZE ≤ st.flock.length) :
    (∀ a, (get_action k rand st).1 ≠ some (PlayerAction.Obtain a)) ∧
    (find_duplicate_in_flock st.flock = none →
      (get_action k rand st).1
          = some (PlayerAction.Move (get_move_to_target k st.position st.ark_pos)) ∧
      (get_action k rand st).2.current_target_pos = some st.ark_pos) := by
  rw [get_action_eq]
  rcases hru : (if (maintain st).is_raining then
      handle_rain_urgency k (maintain st) (maintain st).position else none) with _ | mt
  · rcases hdp : find_duplicate_in_flock st.flock with _ | d
    · have h := get_action_core_full k rand (maintain st) hk hin hru hdp hfull
      rw [h]
      exact ⟨fun a => by simp, fun _ => ⟨rfl, rfl⟩⟩
    · have h := get_action_core_dup k rand (maintain st) d hk hin hru hdp
      rw [h]
      refine ⟨fun a => by simp, fun hnone => ?_⟩
      exact (Option.some_ne_none d hnone).elim
  · have hr : (maintain st).is_raining = true := by
      by_contra hcon
      rw [if_neg hcon] at hru
      cases hru
    have hu : handle_rain_urgency k (maintain st) (maintain st).position = some mt := by
      rw [if_pos hr] at hru
      exact hru
    have h := get_action_core_rain k rand (maintain st) mt hk hin hr hu
    have hmt := handle_rain_urgency_some k (maintain st) _ mt hu
    rw [h, hmt, get_return_move_direct]
    exact ⟨fun a => by simp, fun _ => ⟨rfl, rfl⟩⟩

/-- Counterexample to C4 as stated: a full flock of five containing a
duplicate (1, Male) key makes get_action return a Release, not a Move. -/
theorem claim_C4_counterexample :
    (get_action k0 rand0 stC4).1 = some (PlayerAction.Release ⟨0, 1, Gender.Male⟩) ∧
    ∀ p : Pt, (get_action k0 rand0 stC4).1 ≠ some (PlayerAction.Move p) := by
  have h0 : get_distance stC4.position stC4.ark_pos = 0 := get_distance_self _
  have hin : is_within_safe_radius stC4.position stC4.ark_pos SAFE_RADIUS_FROM_ARK := by
    unfold is_within_safe_radius
    rw [h0]
    norm_num [SAFE_RADIUS_FROM_ARK]
  have hnu' : (if (maintain stC4).is_raining then
      handle_rain_urgency k0 (maintain stC4) (maintain stC4).position else none) = none := by
    rw [if_neg (by decide)]
  have h := get_action_core_dup k0 rand0 (maintain stC4) ⟨0, 1, Gender.Male⟩ rfl hin hnu' (by decide)
  rw [get_action_eq, h]
  exact ⟨rfl, fun p => by simp⟩

/-- Witness for the amended C4: a duplicate-free full flock of five gives
the direct-return move and never an Obtain. -/
theorem claim_C4_witness :
    (get_action k0 rand0 stC4w).1
        = some (PlayerAction.Move (get_move_to_target k0 stC4w.position stC4w.ark_pos)) ∧
    (∀ a, (get_action k0 rand0 stC4w).1 ≠ some (PlayerAction.Obtain a)) := by
  have h0 : get_distance stC4w.position stC4w.ark_pos = 0 := get_distance_self _
  have hin : is_within_safe_radius stC4w.position stC4w.ark_pos SAFE_RADIUS_FROM_ARK := by
    unfold is_within_safe_radius
    rw [h0]
    norm_num [SAFE_RADIUS_FROM_ARK]
  have h := claim_C4 k0 rand0 stC4w rfl hin (by decide)
  exact ⟨(h.2 (by decide)).1, h.1⟩

lemma ark_fold_flag_mono (rand : ℕ → ℝ) (b : ℝ) (l : List Animal) :
    ∀ s ang i, (ark_fold rand b l s true ang i).2.1 = true := by
  induction l with
  | nil => intro s ang i; rfl
  | cons x rest ih =>
    intro s ang i
    simp only [ark_fold]
    split_ifs with h
    · exact ih _ _ _
    · exact ih _ _ _

lemma ark_fold_flag_of_mem (rand : ℕ → ℝ) (b : ℝ) (l : List Animal) (a : Animal)
    (ha : a ∈ l) (hg : a.gender ≠ Gender.Unknown) :
    ∀ s f ang i, (ark_fold rand b l s f ang i).2.1 = true := by
  induction l with
  | nil => cases ha
  | cons x rest ih =>
    intro s f ang i
    simp only [ark_fold]
    rcases List.mem_cons.mp ha with hx | hrest
    · subst hx
      rw [if_pos hg]
      exact ark_fold_flag_mono rand b rest _ _ _
    · split_ifs with h
      · exact ark_fold_flag_mono rand b rest _ _ _
      · exact ih hrest _ _ _ _

lemma ark_fold_flag_all_unknown (rand : ℕ → ℝ) (b : ℝ) (l : List Animal)
    (h : ∀ a ∈ l, a.gender = Gender.Unknown) :
    ∀ s ang i, (ark_fold rand b l s false ang i).2.1 = false := by
  induction l with
  | nil => intro s ang i; rfl
  | cons x rest ih =>
    intro s ang i
    simp only [ark_fold]
    rw [if_neg (by simpa using h x (List.mem_cons_self x rest))]
    exact ih (fun a ha => h a (List.mem_cons_of_mem x ha)) _ _ _

lemma update_obtained_flag_true (rand : ℕ → ℝ) (l : List Animal)
    (ob : Finset SpeciesGender) (isp : Bool) (te hid : ℤ) (b : ℝ) (a : Animal)
    (ha : a ∈ l) (hg : a.gender ≠ Gender.Unknown) :
    (update_obtained_species_from_ark rand l ob isp te hid b).2.1 = true := by
  unfold update_obtained_species_from_ark
  exact ark_fold_flag_of_mem rand b l a ha hg _ _ _ _

lemma update_obtained_flag_false (rand : ℕ → ℝ) (l : List Animal)
    (ob : Finset SpeciesGender) (isp : Bool) (te hid : ℤ) (b : ℝ)
    (h : ∀ a ∈ l, a.gender = Gender.Unknown) :
    (update_obtained_species_from_ark rand l ob isp te hid b).2.1 = false := by
  unfold update_obtained_species_from_ark
  exact ark_fold_flag_all_unknown rand b l h _ _ _

/-- Specialization fields together with the fan-out flag: the four fields
of the player state that the decision logic must not silently change. -/
def frame4 (st : PlayerState) : Bool × List String × List SpeciesGender × Bool :=
  (st.is_specialized, st.specialization_target_species, st.to_search_list,
   st.is_exploring_fan_out)

lemma try_obtain_frame4 (st : PlayerState) :
    frame4 (try_obtain_in_current_cell st).2 = frame4 st := by
  unfold try_obtain_in_current_cell
  split
  · rfl
  · split
    · rfl
    · split <;> rfl

lemma chase_frame4 (k : Consts) (st : PlayerState) (pos : Pt) (cell : CellView) :
    frame4 (handle_animal_chase k st pos cell).2 = frame4 st := by
  simp only [handle_animal_chase]
  split <;> rfl

lemma rain_movement_frame4 (k : Consts) (st : PlayerState) (pos : Pt)
    (r : Pt × PlayerState) (h : handle_rain_movement k st pos = some r) :
    frame4 r.2 = frame4 st := by
  unfold handle_rain_movement at h
  rcases htr : get_turns_remaining_until_end k st with _ | tr
  · rw [htr] at h
    cases h
  · rw [htr] at h
    dsimp only at h
    by_cases h1 : get_distance pos st.ark_pos < 200 ∧ tr - get_turns_to_reach_ark k st > 200
    · rw [if_pos h1] at h
      by_cases h2 : 3 ≤ st.flock.length
      · rw [if_pos h2] at h
        injection h with h'
        subst h'
        rfl
      · rw [if_neg h2] at h
        cases h
    · rw [if_neg h1] at h
      by_cases h2 : get_distance pos st.ark_pos < 500 ∧ tr - get_turns_to_reach_ark k st > 100
      · rw [if_pos h2] at h
        rcases hat : st.animal_target_cell with _ | cell
        · rw [hat] at h
          dsimp only at h
          injection h with h'
          subst h'
          rfl
        · rw [hat] at h
          dsimp only at h
          by_cases h3 : st.flock.length < k.MAX_FLOCK_SIZE
          · rw [if_pos h3] at h
            by_cases h4 : 15 ≤ get_distance pos (cellCenter cell)
            · rw [if_pos h4] at h
              injection h with h'
              subst h'
              rfl
            · rw [if_neg h4] at h
              cases h
          · rw [if_neg h3] at h
            injection h with h'
            subst h'
            rfl
      · rw [if_neg h2] at h
        injection h with h'
        subst h'
        rfl

lemma fan_out_frame4 (k : Consts) (rand : ℕ → ℝ) (st : PlayerState) (pos : Pt) :
    frame3 (handle_fan_out_exploration k rand st pos).2 = frame3 st := by
  simp only [handle_fan_out_exploration]
  split <;> rfl

lemma fan_out_fanout_false (k : Consts) (rand : ℕ → ℝ) (st : PlayerState) (pos : Pt)
    (h : st.is_exploring_fan_out = false) :
    (handle_fan_out_exploration k rand st pos).2.is_exploring_fan_out = false := by
  simp only [handle_fan_out_exploration]
  split
  · rfl
  · exact h

lemma exploration_frame3 (k : Consts) (rand : ℕ → ℝ) (st : PlayerState) (pos : Pt) :
    frame3 (handle_exploration k rand st pos).2 = frame3 st := by
  simp only [handle_exploration]
  split
  · split
    · have h := fan_out_frame4 k rand st pos
      exact h
    · rfl
  · split
    · rfl
    · split <;> rfl

lemma exploration_fanout_false (k : Consts) (rand : ℕ → ℝ) (st : PlayerState) (pos : Pt)
    (hf : st.is_exploring_fan_out = false) :
    (handle_exploration k rand st pos).2.is_exploring_fan_out = false := by
  simp only [handle_exploration]
  split
  · split
    · exact fan_out_fanout_false k rand st pos hf
    · exact hf
  · split
    · exact hf
    · split <;> exact hf

lemma frame4_fields {s t : PlayerState} (h : frame4 s = frame4 t) :
    s.is_specialized = t.is_specialized ∧
    s.specialization_target_species = t.specialization_target_species ∧
    s.to_search_list = t.to_search_list ∧
    s.is_exploring_fan_out = t.is_exploring_fan_out := by
  unfold frame4 at h
  exact ⟨congrArg (fun x => x.1) h, congrArg (fun x => x.2.1) h,
    congrArg (fun x => x.2.2.1) h, congrArg (fun x => x.2.2.2) h⟩

lemma frame3_of_frame4 {s t : PlayerState} (h : frame4 s = frame4 t) :
    frame3 s = frame3 t := by
  obtain ⟨h1, h2, h3, _⟩ := frame4_fields h
  unfold frame3
  rw [h1, h2, h3]

lemma acquire_frame4 (k : Consts) (st1 : PlayerState) (pos : Pt)
    (r : Pt × PlayerState) (h : acquire_new_target k st1 pos = some r) :
    frame4 r.2 = frame4 st1 := by
  unfold acquire_new_target at h
  split_ifs at h
  split at h
  · split_ifs at h
    injection h with h'
    subst h'
    rfl
  · cases h

lemma get_action_core_frame (k : Consts) (rand : ℕ → ℝ) (s : PlayerState) :
    frame3 (get_action_core k rand s).2 = frame3 s ∧
    (s.is_exploring_fan_out = false →
      (get_action_core k rand s).2.is_exploring_fan_out = false) := by
  unfold get_action_core
  split
  · exact ⟨rfl, fun h => h⟩
  · dsimp only
    split
    · exact ⟨rfl, fun h => h⟩
    · split
      · exact ⟨rfl, fun h => h⟩
      · split
        · exact ⟨rfl, fun h => h⟩
        · split
          · exact ⟨rfl, fun h => h⟩
          · split
            · rename_i a st1 heq
              have hf := try_obtain_frame4 s
              rw [heq] at hf
              obtain ⟨h1, h2, h3, h4⟩ := frame4_fields hf
              refine ⟨frame3_of_frame4 hf, fun h => ?_⟩
              rw [h4, h]
            · rename_i st1 heq
              have hf := try_obtain_frame4 s
              rw [heq] at hf
              split
              · rename_i cell hcell
                have hc := chase_frame4 k st1 s.position cell
                have hff : frame4 (handle_animal_chase k st1 s.position cell).2 = frame4 s :=
                  hc.trans hf
                obtain ⟨h1, h2, h3, h4⟩ := frame4_fields hff
                refine ⟨frame3_of_frame4 hff, fun h => ?_⟩
                rw [h4, h]
              · split
                · rename_i r hr
                  have ha := acquire_frame4 k st1 s.position r hr
                  have hff : frame4 r.2 = frame4 s := ha.trans hf
                  obtain ⟨h1, h2, h3, h4⟩ := frame4_fields hff
                  refine ⟨frame3_of_frame4 hff, fun h => ?_⟩
                  rw [h4, h]
                · split
                  · rename_i r hr
                    have hrm : handle_rain_movement k st1 s.position = some r := by
                      by_cases hb : st1.is_raining = true
                      · rwa [if_pos hb] at hr
                      · rw [if_neg hb] at hr
                        cases hr
                    have ha := rain_movement_frame4 k st1 s.position r hrm
                    have hff : frame4 r.2 = frame4 s := ha.trans hf
                    obtain ⟨h1, h2, h3, h4⟩ := frame4_fields hff
                    refine ⟨frame3_of_frame4 hff, fun h => ?_⟩
                    rw [h4, h]
                  · split
                    · obtain ⟨h1, h2, h3, h4⟩ := frame4_fields hf
                      refine ⟨?_, fun h => ?_⟩
                      · show frame3 st1 = frame3 s
                        exact frame3_of_frame4 hf
                      · show st1.is_exploring_fan_out = false
                        rw [h4, h]
                    · obtain ⟨h1, h2, h3, h4⟩ := frame4_fields hf
                      have he := exploration_frame3 k rand st1 s.position
                      refine ⟨?_, fun h => ?_⟩
                      · exact he.trans (frame3_of_frame4 hf)
                      · exact exploration_fanout_false k rand st1 s.position (by rw [h4, h])

lemma get_action_frame (k : Consts) (rand : ℕ → ℝ) (st : PlayerState) :
    frame3 (get_action k rand st).2 = frame3 st ∧
    (st.is_exploring_fan_out = false →
      (get_action k rand st).2.is_exploring_fan_out = false) := by
  rw [get_action_eq]
  have h := get_action_core_frame k rand (maintain st)
  exact ⟨h.1, h.2⟩

lemma check_surroundings_frame3_of_not_spec (rand : ℕ → ℝ) (st : PlayerState)
    (snap : Snapshot) (hs : st.is_specialized = false) :
    frame3 (check_surroundings rand st snap) = frame3 st := by
  unfold check_surroundings
  dsimp only
  by_cases hk : st.kind_is_noah = true
  · rw [if_pos hk]
    repeat' split
    all_goals rfl
  · rw [if_neg hk]
    rcases hav : snap.ark_view with _ | l
    · dsimp only
      repeat' split
      all_goals rfl
    · dsimp only
      rw [if_neg (by simp [hs]), if_neg (by simp [hs])]
      repeat' split
      all_goals rfl

lemma check_surroundings_frame3_revert (rand : ℕ → ℝ) (st : PlayerState)
    (snap : Snapshot) (l : List Animal) (hk : st.kind_is_noah = false)
    (hs : st.is_specialized = true) (hav : snap.ark_view = some l)
    (ht : 1000 < snap.time_elapsed) :
    frame3 (check_surroundings rand st snap) = (false, [], []) := by
  unfold check_surroundings
  dsimp only
  rw [hav]
  dsimp only
  rw [if_neg (by simp [hk])]
  rw [if_pos ⟨hs, ht⟩]
  repeat' split
  all_goals rfl

lemma check_surroundings_fanout_of_none (rand : ℕ → ℝ) (st : PlayerState)
    (snap : Snapshot) (hav : snap.ark_view = none) :
    (check_surroundings rand st snap).is_exploring_fan_out
      = st.is_exploring_fan_out := by
  unfold check_surroundings
  dsimp only
  rw [hav]
  dsimp only
  by_cases hk : st.kind_is_noah = true
  · rw [if_pos hk]
    repeat' split
    all_goals rfl
  · rw [if_neg hk]
    repeat' split
    all_goals rfl

lemma check_surroundings_fanout_all_unknown (rand : ℕ → ℝ) (st : PlayerState)
    (snap : Snapshot) (l : List Animal) (hav : snap.ark_view = some l)
    (hall : ∀ a ∈ l, a.gender = Gender.Unknown) :
    ∀ hf : st.is_exploring_fan_out = false,
    (check_surroundings rand st snap).is_exploring_fan_out = false := by
  intro hf
  unfold check_surroundings
  dsimp only
  rw [hav]
  dsimp only
  have hflag := update_obtained_flag_false rand l st.obtained_species st.is_specialized
    snap.time_elapsed st.id st.base_angle hall
  by_cases hk : st.kind_is_noah = true
  · rw [if_pos hk]
    repeat' split
    all_goals exact hf
  · rw [if_neg hk]
    repeat' split
    all_goals exact hflag

lemma check_surroundings_fanout_gendered (rand : ℕ → ℝ) (st : PlayerState)
    (snap : Snapshot) (l : List Animal) (a : Animal) (hk : st.kind_is_noah = false)
    (hav : snap.ark_view = some l) (ha : a ∈ l) (hg : a.gender ≠ Gender.Unknown) :
    (check_surroundings rand st snap).is_exploring_fan_out = true := by
  unfold check_surroundings
  dsimp only
  rw [hav]
  dsimp only
  rw [if_neg (by simp [hk])]
  have hflag := update_obtained_flag_true rand l st.obtained_species st.is_specialized
    snap.time_elapsed st.id st.base_angle a ha hg
  repeat' split
  all_goals exact hflag

/-- C5 amended: the late-game reversion to generalist behavior happens
when elapsed time exceeds 1000 and the home base is visible in the
snapshot (the switch sits inside the ark-visible branch of
check_surroundings, so it does not fire while the base is out of sight,
contrary to the original claim); once is_specialized is false it stays
false with target and search lists untouched across every further
check_surroundings, and get_action never changes the specialization
fields, so the reversion is permanent. -/
theorem claim_C5 :
    (∀ (rand : ℕ → ℝ) (st : PlayerState) (snap : Snapshot) (l : List Animal),
      st.kind_is_noah = false → st.is_specialized = true →
      snap.ark_view = some l → 1000 < snap.time_elapsed →
      (check_surroundings rand st snap).is_specialized = false ∧
      (check_surroundings rand st snap).specialization_target_species = [] ∧
      (check_surroundings rand st snap).to_search_list = []) ∧
    (∀ (rand : ℕ → ℝ) (st : PlayerState) (snap : Snapshot),
      st.is_specialized = false →
      (check_surroundings rand st snap).is_specialized = false ∧
      (check_surroundings rand st snap).specialization_target_species
        = st.specialization_target_species ∧
      (check_surroundings rand st snap).to_search_list = st.to_search_list) ∧
    (∀ (k : Consts) (rand : ℕ → ℝ) (st : PlayerState),
      (get_action k rand st).2.is_specialized = st.is_specialized ∧
      (get_action k rand st).2.specialization_target_species
        = st.specialization_target_species ∧
      (get_action k rand st).2.to_search_list = st.to_search_list) := by
  refine ⟨?_, ?_, ?_⟩
  · intro rand st snap l hk hs hav ht
    have h := check_surroundings_frame3_revert rand st snap l hk hs hav ht
    unfold frame3 at h
    exact ⟨congrArg (fun x => x.1) h, congrArg (fun x => x.2.1) h,
      congrArg (fun x => x.2.2) h⟩
  · intro rand st snap hs
    have h := check_surroundings_frame3_of_not_spec rand st snap hs
    unfold frame3 at h
    refine ⟨?_, congrArg (fun x => x.2.1) h, congrArg (fun x => x.2.2) h⟩
    have h1 : (check_surroundings rand st snap).is_specialized = st.is_specialized :=
      congrArg (fun x => x.1) h
    rw [h1]
    exact hs
  · intro k rand st
    have h := (get_action_frame k rand st).1
    unfold frame3 at h
    exact ⟨congrArg (fun x => x.1) h, congrArg (fun x => x.2.1) h,
      congrArg (fun x => x.2.2) h⟩

/-- Counterexample to C5 as stated: a specialized agent at turn 1001 whose
snapshot does not show the home base stays specialized, so the reversion
is not unconditional in the elapsed time. -/
theorem claim_C5_counterexample :
    1000 < snapC5.time_elapsed ∧ snapC5.ark_view = none ∧
    (check_surroundings rand0 stC5 snapC5).is_specialized = true := by
  refine ⟨by norm_num [snapC5], rfl, ?_⟩
  rfl

/-- Witness for the amended C5: same state and turn, but with the home
base visible; the agent reverts with both lists cleared. -/
theorem claim_C5_witness :
    (check_surroundings rand0 stC5 snapC5w).is_specialized = false ∧
    (check_surroundings rand0 stC5 snapC5w).specialization_target_species = [] ∧
    (check_surroundings rand0 stC5 snapC5w).to_search_list = [] := by
  exact claim_C5.1 rand0 stC5 snapC5w [] rfl rfl rfl (by norm_num [snapC5w])

/-- C6 amended: get_action never raises the fan-out flag (once false it
stays false within the decision step), and check_surroundings keeps it
false while the home base stays out of sight or shows no known-gender
animal; but whenever the snapshot shows the home base with at least one
known-gender animal aboard, check_surroundings raises the flag again, so
the switch away from fan-out exploration is not permanent, contrary to
the original claim. -/
theorem claim_C6 :
    (∀ (k : Consts) (rand : ℕ → ℝ) (st : PlayerState),
      st.is_exploring_fan_out = false →
      (get_action k rand st).2.is_exploring_fan_out = false) ∧
    (∀ (rand : ℕ → ℝ) (st : PlayerState) (snap : Snapshot),
      st.is_exploring_fan_out = false → snap.ark_view = none →
      (check_surroundings rand st snap).is_exploring_fan_out = false) ∧
    (∀ (rand : ℕ → ℝ) (st : PlayerState) (snap : Snapshot) (l : List Animal),
      st.is_exploring_fan_out = false → snap.ark_view = some l →
      (∀ a ∈ l, a.gender = Gender.Unknown) →
      (check_surroundings rand st snap).is_exploring_fan_out = false) ∧
    (∀ (rand : ℕ → ℝ) (st : PlayerState) (snap : Snapshot) (l : List Animal) (a : Animal),
      st.kind_is_noah = false → snap.ark_view = some l →
      a ∈ l → a.gender ≠ Gender.Unknown →
      (check_surroundings rand st snap).is_exploring_fan_out = true) := by
  refine ⟨?_, ?_, ?_, ?_⟩
  · intro k rand st hf
    exact (get_action_frame k rand st).2 hf
  · intro rand st snap hf hav
    rw [check_surroundings_fanout_of_none rand st snap hav]
    exact hf
  · intro rand st snap l hf hav hall
    exact check_surroundings_fanout_all_unknown rand st snap l hav hall hf
  · intro rand st snap l a hk hav ha hg
    exact check_surroundings_fanout_gendered rand st snap l a hk hav ha hg

/-- Counterexample to C6 as stated: an agent whose fan-out flag is false
sees the home base with a known-gender animal aboard; check_surroundings
sets the flag back to true, so the agent does return to fan-out
exploration. -/
theorem claim_C6_counterexample :
    stC6.is_exploring_fan_out = false ∧
    (check_surroundings rand0 stC6 snapC6).is_exploring_fan_out = true := by
  refine ⟨rfl, ?_⟩
  exact check_surroundings_fanout_gendered rand0 stC6 snapC6 [⟨0, 7, Gender.Male⟩]
    ⟨0, 7, Gender.Male⟩ rfl rfl (List.mem_singleton_self _) (by decide)

/-- Witness for the amended C6: with the home base out of sight the flag
stays false. -/
theorem claim_C6_witness :
    (check_surroundings rand0 stC6 snapC6w).is_exploring_fan_out = false := by
  exact claim_C6.2.1 rand0 stC6 snapC6w rfl rfl

/-- C9: every candidate accepted inside the bounded attempt loop of the
random-exploration-target function lies within the safe radius of the ark
and within map bounds, and whenever both the previous-movement vector and
the candidate direction vector have magnitude at least EPS, the clamped
backtrack angle between them lies strictly outside the inclusive band
from 160 to 200 degrees. -/
theorem claim_C9 (k : Consts) (rand : ℕ → ℝ)
    (current_pos previous_position ark_pos : Pt) (safe_radius : ℝ)
    (i fuel : ℕ) (tp : Pt)
    (h : pickLoop k rand current_pos previous_position ark_pos safe_radius i fuel
      = some tp) :
    is_within_safe_radius tp ark_pos safe_radius ∧
    is_within_map_bounds tp.1 tp.2 ∧
    (k.EPS ≤ get_distance current_pos previous_position →
     k.EPS ≤ get_distance tp current_pos →
     backtrack_angle
         (current_pos.1 - previous_position.1, current_pos.2 - previous_position.2)
         (tp.1 - current_pos.1, tp.2 - current_pos.2) < BACKTRACK_MIN_ANGLE ∨
     BACKTRACK_MAX_ANGLE < backtrack_angle
         (current_pos.1 - previous_position.1, current_pos.2 - previous_position.2)
         (tp.1 - current_pos.1, tp.2 - current_pos.2)) := by
  induction fuel generalizing i with
  | zero => cases h
  | succ fuel ih =>
    simp only [pickLoop] at h
    split at h
    next hc1 => exact ih (i + 1) h
    next hc1 =>
      split at h
      next hc2 => exact ih (i + 1) h
      next hc2 =>
        split at h
        next hc3 =>
          injection h with h'
          subst h'
          refine ⟨not_not.mp hc1, not_not.mp hc2, fun he1 he2 => ?_⟩
          exfalso
          simp only [get_distance] at he1 he2
          rcases hc3 with h3 | h3
          · linarith
          · linarith
        next hc3 =>
          split at h
          next hc4 =>
            injection h with h'
            subst h'
            refine ⟨not_not.mp hc1, not_not.mp hc2, fun he1 he2 => ?_⟩
            simp only [backtrack_angle]
            rcases not_and_or.mp hc4 with hb | hb
            · exact Or.inl (not_le.mp hb)
            · exact Or.inr (not_le.mp hb)
          next hc4 => exact ih (i + 1) h

lemma pickLoop_accept_first (k : Consts) (rand : ℕ → ℝ) (cur prev ark : Pt)
    (safe : ℝ) (i fuel : ℕ)
    (hin : is_within_safe_radius
      (cur.1 + Real.cos (rand i * (2 * Real.pi)) * TARGET_POINT_DISTANCE,
       cur.2 + Real.sin (rand i * (2 * Real.pi)) * TARGET_POINT_DISTANCE) ark safe)
    (hbnd : is_within_map_bounds
      (cur.1 + Real.cos (rand i * (2 * Real.pi)) * TARGET_POINT_DISTANCE)
      (cur.2 + Real.sin (rand i * (2 * Real.pi)) * TARGET_POINT_DISTANCE))
    (hmag : Real.sqrt ((cur.1 - prev.1) ^ 2 + (cur.2 - prev.2) ^ 2) < k.EPS) :
    pickLoop k rand cur prev ark safe i (fuel + 1) =
      some (cur.1 + Real.cos (rand i * (2 * Real.pi)) * TARGET_POINT_DISTANCE,
            cur.2 + Real.sin (rand i * (2 * Real.pi)) * TARGET_POINT_DISTANCE) := by
  simp only [pickLoop]
  rw [if_neg (not_not_intro hin), if_neg (not_not_intro hbnd), if_pos (Or.inl hmag)]

lemma pickLoop_wit_target :
    (((400 : ℝ), (500 : ℝ)) : Pt).1
        + Real.cos (rand0 0 * (2 * Real.pi)) * TARGET_POINT_DISTANCE = 550 ∧
    (((400 : ℝ), (500 : ℝ)) : Pt).2
        + Real.sin (rand0 0 * (2 * Real.pi)) * TARGET_POINT_DISTANCE = 500 := by
  have hang : rand0 0 * (2 * Real.pi) = 0 := by
    simp [rand0]
  rw [hang, Real.cos_zero, Real.sin_zero]
  unfold TARGET_POINT_DISTANCE
  norm_num

lemma pickLoop_wit_eq :
    pickLoop k0 rand0 (((400 : ℝ), (500 : ℝ)) : Pt) (((400 : ℝ), (500 : ℝ)) : Pt)
      (((500 : ℝ), (500 : ℝ)) : Pt) 1000 0 150 = some (((550 : ℝ), (500 : ℝ)) : Pt) := by
  obtain ⟨hx, hy⟩ := pickLoop_wit_target
  have h50 : get_distance (((550 : ℝ), (500 : ℝ)) : Pt) (((500 : ℝ), (500 : ℝ)) : Pt) = 50 := by
    unfold get_distance
    apply sqrtEval
    · norm_num
    · norm_num
  have hin : is_within_safe_radius (((550 : ℝ), (500 : ℝ)) : Pt)
      (((500 : ℝ), (500 : ℝ)) : Pt) 1000 := by
    unfold is_within_safe_radius
    rw [h50]
    norm_num
  have hbnd : is_within_map_bounds (550 : ℝ) (500 : ℝ) := by
    unfold is_within_map_bounds MIN_MAP_COORD MAX_MAP_COORD
    norm_num
  have hmag : Real.sqrt (((((400 : ℝ), (500 : ℝ)) : Pt).1 - (((400 : ℝ), (500 : ℝ)) : Pt).1) ^ 2
      + ((((400 : ℝ), (500 : ℝ)) : Pt).2 - (((400 : ℝ), (500 : ℝ)) : Pt).2) ^ 2) < k0.EPS := by
    rw [sqrtEval _ 0 le_rfl (by norm_num)]
    show (0 : ℝ) < k0.EPS
    norm_num [k0]
  have h := pickLoop_accept_first k0 rand0 (((400 : ℝ), (500 : ℝ)) : Pt)
    (((400 : ℝ), (500 : ℝ)) : Pt) (((500 : ℝ), (500 : ℝ)) : Pt) 1000 0 149
    (by rw [hx, hy]; exact hin) (by rw [hx, hy]; exact hbnd) hmag
  rw [hx, hy] at h
  exact h

/-- Witness for C9: with the all-zero randomness oracle, the agent at
(400, 500) with zero previous movement and the ark at (500, 500), the
first candidate (550, 500) is accepted; it is within the safe radius and
within map bounds. -/
theorem claim_C9_witness :
    is_within_safe_radius (((550 : ℝ), (500 : ℝ)) : Pt) (((500 : ℝ), (500 : ℝ)) : Pt) 1000 ∧
    is_within_map_bounds (((550 : ℝ), (500 : ℝ)) : Pt).1 (((550 : ℝ), (500 : ℝ)) : Pt).2 := by
  have h := claim_C9 k0 rand0 (((400 : ℝ), (500 : ℝ)) : Pt) (((400 : ℝ), (500 : ℝ)) : Pt)
    (((500 : ℝ), (500 : ℝ)) : Pt) 1000 0 150 (((550 : ℝ), (500 : ℝ)) : Pt) pickLoop_wit_eq
  exact ⟨h.1, h.2.1⟩
